import Mathlib

/-!
Foodie record store (`store.go`).

A shallow embedding of the data-access layer of the Foodie application and the
proofs of its storage contract.

* Part 1 is the data model and the vocabulary of `database/sql` that the store
  uses: driver values, result cursors, the database handle.
* Part 2 is the store itself, one definition per method of `dbStore`.
* Part 3 is a reference relational database for the schema the store talks to:
  a lexer, a parser and an executor for the SQL fragment of the statements.
* Part 4 holds the lemmas and the theorems.

Go values map as follows: an `error` is `Option Error` (`nil` is `none`), a
slice result is `Option (List α)` (`none` is the nil slice, `some []` the empty
non-nil slice), a method with side effects takes the world before the call and
returns the world after it.
-/

namespace Foodie

/-! ## Part 1: data model and database vocabulary -/

/-- A Go error value, identified by its message. -/
structure Error where
  msg : String
deriving DecidableEq

/-- Modelled from the spec: the record declarations are not part of `store.go`.
A "number" (price, total cost) is a payload the store only moves and never
computes with; it is carried here as an integer amount. -/
abbrev Number := Int

/-- Modelled from the spec: `Meal: { Food: string, Price: number, Image: string }`. -/
structure Meal where
  Food : String
  Price : Number
  Image : String
deriving DecidableEq

/-- Modelled from the spec: `Order: { ID: integer, Meal: string, Price: number,
Image: string, Plates: integer, TotalCost: number }`. -/
structure Order where
  ID : Int
  Meal : String
  Price : Number
  Image : String
  Plates : Int
  TotalCost : Number
deriving DecidableEq

/-- Modelled from the spec: `Customer: { Name: string, Address: string,
Meal: string, TotalCost: number }`. -/
structure Customer where
  Name : String
  Address : String
  Meal : String
  TotalCost : Number
deriving DecidableEq

/-- A value crossing the driver boundary: a statement argument or a column of a
result row. -/
inductive Value where
  | null
  | int (i : Int)
  | num (x : Number)
  | str (s : String)
deriving DecidableEq

/-- The cursor `*sql.Rows` handed back by a query: the rows that successive
calls of `Next` deliver, the value of `rows.Err()` once `Next` has returned
false, and the value of `rows.Close()`. -/
structure Rows where
  pending : List (List Value)
  err : Option Error
  closeErr : Option Error
deriving DecidableEq

/-- How `Scan` converts one column into a destination of each of the three
kinds the records use (`database/sql` calls it `convertAssign`). -/
structure Convert where
  asString : Value → Except Error String
  asNumber : Value → Except Error Number
  asInt : Value → Except Error Int

/-- The database handle `*sql.DB` over a database whose state has type `σ`:
what one statement does to the database and answers, and the conversions that
`Scan` applies to the rows it returns. -/
structure DB (σ : Type) where
  query : σ → String → List Value → σ × Except Error Rows
  convert : Convert

/-- The dbStore struct: it holds the database connection object. -/
structure dbStore (σ : Type) where
  db : DB σ

/-- Everything a store method can observe or change: the database, the
statements sent to it so far (text and positional arguments, oldest first) and
the lines printed on standard output. -/
structure World (σ : Type) where
  state : σ
  sent : List (String × List Value)
  stdout : List String

/-- The error `sql.ErrNoRows`. -/
def ErrNoRows : Error := ⟨"sql: no rows in result set"⟩

/-- The error of `Scan` when the row and the destination list differ in length. -/
def ErrScanArity : Error := ⟨"sql: wrong number of destination arguments in Scan"⟩

/-- The conversions between a column and a destination of the same kind, which
`database/sql` performs by plain assignment; every other pairing, NULL
included, is refused here. -/
def stdConvert : Convert where
  asString := fun v => match v with
    | .str s => .ok s
    | _ => .error ⟨"sql: Scan error: unsupported conversion to string"⟩
  asNumber := fun v => match v with
    | .num x => .ok x
    | _ => .error ⟨"sql: Scan error: unsupported conversion to float64"⟩
  asInt := fun v => match v with
    | .int i => .ok i
    | _ => .error ⟨"sql: Scan error: unsupported conversion to int64"⟩

/-- A conversion is faithful when a column of the destination's own kind is
stored unchanged, as `database/sql` does for string, float64 and int64. -/
def Convert.Faithful (c : Convert) : Prop :=
  (∀ s, c.asString (.str s) = .ok s) ∧ (∀ x, c.asNumber (.num x) = .ok x) ∧
    (∀ i, c.asInt (.int i) = .ok i)

/-- The error part of a result, as a Go `error`. -/
def errOf {α : Type} : Except Error α → Option Error
  | .error e => some e
  | .ok _ => none

/-- The call `db.Query(q, args...)`: one round trip, recorded in the world. -/
def DB.Query {σ : Type} (db : DB σ) (w : World σ) (q : String) (args : List Value) :
    World σ × Except Error Rows :=
  let r := db.query w.state q args
  (⟨r.1, w.sent ++ [(q, args)], w.stdout⟩, r.2)

/-- The call `db.QueryRow(q, args...).Scan(dest...)` as `database/sql` defines it
on top of `Query`: the query error if any; with no row, `rows.Err()` or else
`ErrNoRows`; otherwise the first row is scanned and the cursor closed. The
second component is what `Scan` stored in the destinations, if it got that far. -/
def DB.QueryRowScan {σ α : Type} (db : DB σ) (w : World σ) (q : String) (args : List Value)
    (scan : List Value → Except Error α) : World σ × Option α × Option Error :=
  match db.Query w q args with
  | (w1, .error e) => (w1, none, some e)
  | (w1, .ok rows) =>
    match rows.pending with
    | [] => (w1, none, some (rows.err.getD ErrNoRows))
    | row :: _ =>
      match scan row with
      | .error e => (w1, none, some e)
      | .ok a => (w1, some a, rows.closeErr)

/-- The call `rows.Scan(&meal.Food, &meal.Price, &meal.Image)`. -/
def Convert.scanMeal (db : Convert) : List Value → Except Error Meal
  | [food, price, image] =>
    match db.asString food with
    | .error e => .error e
    | .ok f =>
      match db.asNumber price with
      | .error e => .error e
      | .ok p =>
        match db.asString image with
        | .error e => .error e
        | .ok i => .ok ⟨f, p, i⟩
  | _ => .error ErrScanArity

/-- The call `rows.Scan(&order.ID, &order.Meal, &order.Price, &order.Image,
&order.Plates, &order.TotalCost)`. -/
def Convert.scanOrder (db : Convert) : List Value → Except Error Order
  | [id, meal, price, image, plates, totalcost] =>
    match db.asInt id with
    | .error e => .error e
    | .ok i =>
      match db.asString meal with
      | .error e => .error e
      | .ok m =>
        match db.asNumber price with
        | .error e => .error e
        | .ok p =>
          match db.asString image with
          | .error e => .error e
          | .ok im =>
            match db.asInt plates with
            | .error e => .error e
            | .ok pl =>
              match db.asNumber totalcost with
              | .error e => .error e
              | .ok t => .ok ⟨i, m, p, im, pl, t⟩
  | _ => .error ErrScanArity

/-- The call `rows.Scan(&customer.Name, &customer.Address, &customer.Meal,
&customer.TotalCost)`. -/
def Convert.scanCustomer (db : Convert) : List Value → Except Error Customer
  | [name, address, meal, totalcost] =>
    match db.asString name with
    | .error e => .error e
    | .ok n =>
      match db.asString address with
      | .error e => .error e
      | .ok a =>
        match db.asString meal with
        | .error e => .error e
        | .ok m =>
          match db.asNumber totalcost with
          | .error e => .error e
          | .ok t => .ok ⟨n, a, m, t⟩
  | _ => .error ErrScanArity

/-- The call `Scan(&id)` of `CreateOrders`. -/
def Convert.scanId (db : Convert) : List Value → Except Error Int
  | [id] => db.asInt id
  | _ => .error ErrScanArity

/-! ## Part 2: the store -/

/-- The SQL text of `CreateMeals`. -/
def sqlCreateMeals : String := "INSERT INTO meal(food, price, image) VALUES ($1,$2,$3)"

/-- The SQL text of `CreateOrders`. -/
def sqlCreateOrders : String :=
  "INSERT INTO orders(meal,price,image,plates,totalcost) VALUES ($1,$2,$3,$4,$5)RETURNING id"

/-- The SQL text of `CreateCustomer`. -/
def sqlCreateCustomer : String :=
  "INSERT INTO customers(customer_name,location_address,meal,totalcost) VALUES ($1,$2,$3,$4)"

/-- The SQL text of `DeleteOrders`. -/
def sqlDeleteOrders : String := "DELETE FROM orders"

/-- The SQL text of `DeleteMealOrder`. -/
def sqlDeleteMealOrder : String := "DELETE FROM orders WHERE id = $1"

/-- The SQL text of `GetMeals`. -/
def sqlGetMeals : String := "SELECT food, price, image from meal"

/-- The SQL text of `GetOrders`. -/
def sqlGetOrders : String := "SELECT id,meal,price,image,plates,totalcost from orders"

/-- The SQL text of `GetCustomer`. -/
def sqlGetCustomer : String :=
  "SELECT customer_name,location_address,meal,totalcost from customers"

/-- `func (store *dbStore) CreateMeals(meal *Meal) error`: the rows of the
insert are dropped, its error is returned. -/
def CreateMeals {σ : Type} (store : dbStore σ) (w : World σ) (meal : Meal) :
    World σ × Option Error :=
  let r := store.db.Query w sqlCreateMeals [.str meal.Food, .num meal.Price, .str meal.Image]
  (r.1, errOf r.2)

/-- What `CreateOrders` leaves behind: the world, the record behind the caller's
pointer, the local variable `id`, and the returned error. -/
structure CreateOrdersResult (σ : Type) where
  world : World σ
  orders : Order
  id : Int
  err : Option Error

/-- `func (store *dbStore) CreateOrders(orders *Order) error`: the generated id
is scanned into the local `id`; a non-nil error is printed, wrapped, and the
error itself is returned. -/
def CreateOrders {σ : Type} (store : dbStore σ) (w : World σ) (orders : Order) :
    CreateOrdersResult σ :=
  let r := store.db.QueryRowScan w sqlCreateOrders
    [.str orders.Meal, .num orders.Price, .str orders.Image, .int orders.Plates,
      .num orders.TotalCost] store.db.convert.scanId
  let id : Int := r.2.1.getD 0
  match r.2.2 with
  | some err =>
    ⟨⟨r.1.state, r.1.sent, r.1.stdout ++ ["unable to execute the query: " ++ err.msg]⟩,
      orders, id, some err⟩
  | none => ⟨r.1, orders, id, none⟩

/-- `func (store *dbStore) CreateCustomer(customer *Customer) error`. -/
def CreateCustomer {σ : Type} (store : dbStore σ) (w : World σ) (customer : Customer) :
    World σ × Option Error :=
  let r := store.db.Query w sqlCreateCustomer
    [.str customer.Name, .str customer.Address, .str customer.Meal, .num customer.TotalCost]
  (r.1, errOf r.2)

/-- `func (store *dbStore) DeleteOrders() error`. -/
def DeleteOrders {σ : Type} (store : dbStore σ) (w : World σ) : World σ × Option Error :=
  let r := store.db.Query w sqlDeleteOrders []
  (r.1, errOf r.2)

/-- `func (store *dbStore) DeleteMealOrder(id int64) error`. -/
def DeleteMealOrder {σ : Type} (store : dbStore σ) (w : World σ) (id : Int) :
    World σ × Option Error :=
  let r := store.db.Query w sqlDeleteMealOrder [.int id]
  (r.1, errOf r.2)

/-- The loop `for rows.Next() { ...; if err := rows.Scan(...); err != nil
{ return nil, err }; xs = append(xs, x) }; return xs, nil` shared by the three
readers: `acc` is the slice built so far. The loop ends when `Next` reports
false; `rows.Err()` is not consulted. -/
def scanLoop {α : Type} (scan : List Value → Except Error α) :
    List (List Value) → List α → Option (List α) × Option Error
  | [], acc => (some acc, none)
  | row :: rest, acc =>
    match scan row with
    | .error e => (none, some e)
    | .ok a => scanLoop scan rest (acc ++ [a])

/-- `func (store *dbStore) GetMeals() ([]*Meal, error)`. -/
def GetMeals {σ : Type} (store : dbStore σ) (w : World σ) :
    World σ × Option (List Meal) × Option Error :=
  match store.db.Query w sqlGetMeals [] with
  | (w1, .error err) => (w1, none, some err)
  | (w1, .ok rows) => (w1, scanLoop store.db.convert.scanMeal rows.pending [])

/-- `func (store *dbStore) GetOrders() ([]*Order, error)`. -/
def GetOrders {σ : Type} (store : dbStore σ) (w : World σ) :
    World σ × Option (List Order) × Option Error :=
  match store.db.Query w sqlGetOrders [] with
  | (w1, .error err) => (w1, none, some err)
  | (w1, .ok rows) => (w1, scanLoop store.db.convert.scanOrder rows.pending [])

/-- `func (store *dbStore) GetCustomer() ([]*Customer, error)`. -/
def GetCustomer {σ : Type} (store : dbStore σ) (w : World σ) :
    World σ × Option (List Customer) × Option Error :=
  match store.db.Query w sqlGetCustomer [] with
  | (w1, .error err) => (w1, none, some err)
  | (w1, .ok rows) => (w1, scanLoop store.db.convert.scanCustomer rows.pending [])

/-! ## Part 3: a reference database for the schema of the store

The database is not part of `store.go`. The schema is the one of the
specification, which is also the one the statements of the store name:
`meal(food, price, image)`, `orders(id [generated], meal, price, image, plates,
totalcost)` and `customers(customer_name, location_address, meal, totalcost)`.
The database reads the statement text it is sent: nothing below knows which
statement the store sends. -/

/-- A token of the SQL fragment. Words are case-folded. -/
inductive Token where
  | word (s : String)
  | param (n : Nat)
  | lparen
  | rparen
  | comma
  | eq
deriving DecidableEq

/-- What the lexer is in the middle of reading. -/
inductive Pending where
  | idle
  | word (cs : List Char)
  | param (n : Nat)

/-- The token that ends when a separator is met. -/
def Pending.flush : Pending → List Token
  | .idle => []
  | .word cs => [.word (String.mk cs)]
  | .param n => [.param n]

/-- The lexer, one character at a time. -/
def lexChars : List Char → Pending → Option (List Token)
  | [], p => some p.flush
  | c :: cs, p =>
    if c.isAlphanum || c = '_' then
      match p with
      | .idle => lexChars cs (.word [c.toLower])
      | .word w => lexChars cs (.word (w ++ [c.toLower]))
      | .param n => if c.isDigit then lexChars cs (.param (n * 10 + (c.toNat - 48))) else none
    else if c = '$' then (lexChars cs (.param 0)).map (fun ts => p.flush ++ ts)
    else if c = '(' then (lexChars cs .idle).map (fun ts => p.flush ++ Token.lparen :: ts)
    else if c = ')' then (lexChars cs .idle).map (fun ts => p.flush ++ Token.rparen :: ts)
    else if c = ',' then (lexChars cs .idle).map (fun ts => p.flush ++ Token.comma :: ts)
    else if c = '=' then (lexChars cs .idle).map (fun ts => p.flush ++ Token.eq :: ts)
    else if c = ' ' then (lexChars cs .idle).map (fun ts => p.flush ++ ts)
    else none

/-- A statement of the fragment: `INSERT INTO t(cols) VALUES (params)
[RETURNING col]`, `SELECT cols FROM t`, `DELETE FROM t [WHERE col = param]`. -/
inductive Stmt where
  | insert (table : String) (cols : List String) (params : List Nat)
      (returning : Option String)
  | select (cols : List String) (table : String)
  | delete (table : String) (cond : Option (String × Nat))
deriving DecidableEq

/-- A comma-separated list of names and what follows it. -/
def parseNames : List Token → Option (List String × List Token)
  | .word w :: .comma :: rest => (parseNames rest).map (fun r => (w :: r.1, r.2))
  | .word w :: rest => some ([w], rest)
  | _ => none

/-- A comma-separated list of placeholders and what follows it. -/
def parseParams : List Token → Option (List Nat × List Token)
  | .param n :: .comma :: rest => (parseParams rest).map (fun r => (n :: r.1, r.2))
  | .param n :: rest => some ([n], rest)
  | _ => none

/-- The parser of the fragment. -/
def parseTokens : List Token → Option Stmt
  | .word "select" :: rest =>
    match parseNames rest with
    | some (cols, [.word "from", .word t]) => some (.select cols t)
    | _ => none
  | .word "delete" :: .word "from" :: .word t :: rest =>
    match rest with
    | [] => some (.delete t none)
    | [.word "where", .word c, .eq, .param k] => some (.delete t (some (c, k)))
    | _ => none
  | .word "insert" :: .word "into" :: .word t :: .lparen :: rest =>
    match parseNames rest with
    | some (cols, .rparen :: .word "values" :: .lparen :: rest2) =>
      match parseParams rest2 with
      | some (ps, [.rparen]) => some (.insert t cols ps none)
      | some (ps, [.rparen, .word "returning", .word c]) => some (.insert t cols ps (some c))
      | _ => none
    | _ => none
  | _ => none

/-- From statement text to statement. -/
def parseSQL (q : String) : Option Stmt :=
  (lexChars q.toList .idle).bind parseTokens

/-- Modelled from the spec: the tables of the database schema, which is not
part of `store.go`. -/
inductive Table where
  | meal
  | orders
  | customers
deriving DecidableEq

/-- The table a name denotes. -/
def Table.ofName : String → Option Table
  | "meal" => some .meal
  | "orders" => some .orders
  | "customers" => some .customers
  | _ => none

/-- Modelled from the spec: the columns of each table, in schema order:
`meal(food, price, image)`, `orders(id, meal, price, image, plates, totalcost)`,
`customers(customer_name, location_address, meal, totalcost)`. -/
def Table.columns : Table → List String
  | .meal => ["food", "price", "image"]
  | .orders => ["id", "meal", "price", "image", "plates", "totalcost"]
  | .customers => ["customer_name", "location_address", "meal", "totalcost"]

/-- Modelled from the spec: `orders.id` is generated; the database fills it from
a sequence when an insert leaves it out. -/
def Table.generated : Table → Option String
  | .orders => some "id"
  | _ => none

/-- A failure of the database on one statement: either the statement is refused
(the connection is down, a constraint is violated) and `Query` returns the
error, or the statement is executed and the connection fails while its rows are
fetched, so that the cursor delivers at most `n` rows before `Next` reports
false with `rows.Err()` set. -/
inductive Fault where
  | refuse (e : Error)
  | cut (n : Nat) (e : Error)
deriving DecidableEq

/-- Modelled from the spec: the database behind `*sql.DB` is an external
collaborator that `store.go` does not contain. Its state is the rows of each table (a row lists its cells
in schema order), the next value of the id sequence of `orders`, and the
failures to come: the head of `faults` is the fate of the next statement,
`none` when the database serves it in full. -/
structure Database where
  meal : List (List Value)
  orders : List (List Value)
  customers : List (List Value)
  nextId : Int
  faults : List (Option Fault)
deriving DecidableEq

/-- The rows of a table. -/
def Database.rows (d : Database) : Table → List (List Value)
  | .meal => d.meal
  | .orders => d.orders
  | .customers => d.customers

/-- Replace the rows of a table. -/
def Database.setRows (d : Database) (t : Table) (rs : List (List Value)) : Database :=
  match t with
  | .meal => ⟨rs, d.orders, d.customers, d.nextId, d.faults⟩
  | .orders => ⟨d.meal, rs, d.customers, d.nextId, d.faults⟩
  | .customers => ⟨d.meal, d.orders, rs, d.nextId, d.faults⟩

/-- The cell of a row under a column name; NULL when the row is too short. -/
def Table.cell (t : Table) (c : String) (row : List Value) : Value :=
  row.getD (t.columns.indexOf c) .null

/-- The placeholders of a statement and the positional arguments agree: every
placeholder has an argument and every argument a placeholder. -/
def paramsOk (ps : List Nat) (n : Nat) : Bool :=
  ps.all (fun k => decide (1 ≤ k ∧ k ≤ n)) && (List.range n).all (fun i => ps.contains (i + 1))

/-- SQL equality as a condition: a comparison with NULL never holds. -/
def sqlEq : Value → Value → Bool
  | .null, _ => false
  | _, .null => false
  | a, b => decide (a = b)

/-- The error for a statement outside the fragment. -/
def ErrSyntax : Error := ⟨"pq: syntax error"⟩

/-- The error for a table that does not exist. -/
def ErrNoTable : Error := ⟨"pq: relation does not exist"⟩

/-- The error for an unknown or repeated column, or arguments that do not fit
the placeholders. -/
def ErrBadStatement : Error := ⟨"pq: invalid column or parameter list"⟩

/-- A cursor that delivers the given rows and then ends normally. -/
def Rows.ofList (rs : List (List Value)) : Rows := ⟨rs, none, none⟩

/-- The row an insert stores: schema order, each listed column taking the
argument of its placeholder, the generated column the next id, any other
column NULL. -/
def insertedRow (t : Table) (nextId : Int) (cols : List String) (ps : List Nat)
    (args : List Value) : List Value :=
  t.columns.map (fun c =>
    if cols.contains c then args.getD (ps.getD (cols.indexOf c) 0 - 1) .null
    else if t.generated = some c then .int nextId
    else .null)

/-- Execute one parsed statement. -/
def Database.run (d : Database) (args : List Value) : Stmt → Database × Except Error Rows
  | .select cols name =>
    match Table.ofName name with
    | none => (d, .error ErrNoTable)
    | some t =>
      if cols.all (fun c => t.columns.contains c) && args.isEmpty then
        (d, .ok (Rows.ofList ((d.rows t).map (fun row => cols.map (fun c => t.cell c row)))))
      else (d, .error ErrBadStatement)
  | .delete name cond =>
    match Table.ofName name with
    | none => (d, .error ErrNoTable)
    | some t =>
      match cond with
      | none =>
        if args.isEmpty then (d.setRows t [], .ok (Rows.ofList []))
        else (d, .error ErrBadStatement)
      | some (c, k) =>
        if t.columns.contains c && paramsOk [k] args.length then
          (d.setRows t ((d.rows t).filter
            (fun row => !(sqlEq (t.cell c row) (args.getD (k - 1) .null)))),
            .ok (Rows.ofList []))
        else (d, .error ErrBadStatement)
  | .insert name cols ps ret =>
    match Table.ofName name with
    | none => (d, .error ErrNoTable)
    | some t =>
      if cols.all (fun c => t.columns.contains c) && decide cols.Nodup
          && decide (cols.length = ps.length) && paramsOk ps args.length
          && ret.all (fun c => t.columns.contains c) then
        let row := insertedRow t d.nextId cols ps args
        let d1 := d.setRows t (d.rows t ++ [row])
        let d2 : Database :=
          if t.generated.any (fun g => !(cols.contains g)) then
            ⟨d1.meal, d1.orders, d1.customers, d1.nextId + 1, d1.faults⟩
          else d1
        (d2, .ok (Rows.ofList (match ret with
          | none => []
          | some c => [[t.cell c row]])))
      else (d, .error ErrBadStatement)

/-- The failure due on the next statement, if any. -/
def Database.due (d : Database) : Option Fault :=
  match d.faults with
  | some f :: _ => some f
  | _ => none

/-- The database once the fate of the next statement has been consumed. -/
def Database.next (d : Database) : Database :=
  ⟨d.meal, d.orders, d.customers, d.nextId, d.faults.tail⟩

/-- The cursor of an executed statement as the caller gets it: whole when no
failure is due, cut short when the connection fails while rows are fetched. -/
def Fault.spoil : Option Fault → Rows → Rows
  | some (.cut n e), rows => ⟨rows.pending.take n, some e, rows.closeErr⟩
  | _, rows => rows

/-- One statement sent to the reference database: refused when a refusal is
due, otherwise parsed and executed, its cursor subject to the failure due. -/
def Database.exec (d : Database) (q : String) (args : List Value) :
    Database × Except Error Rows :=
  match d.due with
  | some (.refuse e) => (d.next, .error e)
  | fault =>
    match parseSQL q with
    | none => (d.next, .error ErrSyntax)
    | some stmt =>
      match d.next.run args stmt with
      | (d1, .ok rows) => (d1, .ok (Fault.spoil fault rows))
      | (d1, .error e) => (d1, .error e)

/-- The database serves the next statement in full: no failure is due. -/
def Database.accepts (d : Database) : Bool :=
  match d.due with
  | none => true
  | some _ => false

/-- The database executes the next statement: it is not refused, though the
fetch of its rows may still fail. -/
def Database.serves (d : Database) : Bool :=
  match d.due with
  | some (.refuse _) => false
  | _ => true

/-- The store connected to the reference database, scanning with the
conversions `c`. -/
def sqlStore (c : Convert) : dbStore Database := ⟨⟨Database.exec, c⟩⟩

/-- A world around a database: nothing sent, nothing printed yet. -/
def World.start {σ : Type} (s : σ) : World σ := ⟨s, [], []⟩

/-- The text of the statement sent last. -/
def World.lastText {σ : Type} (w : World σ) : Option String :=
  w.sent.getLast?.map Prod.fst

/-- A database that answers every statement with the same result and keeps no
state, scanned with the plain conversions. -/
def scripted (answer : Except Error Rows) : dbStore Unit :=
  ⟨⟨fun s _ _ => (s, answer), stdConvert⟩⟩

/-- The record `m` carries the fields of the stored meal row `row`: each field
is the conversion of the column of its name. -/
def Meal.Carries (c : Convert) (row : List Value) (m : Meal) : Prop :=
  c.asString (Table.meal.cell "food" row) = .ok m.Food ∧
  c.asNumber (Table.meal.cell "price" row) = .ok m.Price ∧
  c.asString (Table.meal.cell "image" row) = .ok m.Image

/-- The record `o` carries the fields of the stored orders row `row`, the id
included. -/
def Order.Carries (c : Convert) (row : List Value) (o : Order) : Prop :=
  c.asInt (Table.orders.cell "id" row) = .ok o.ID ∧
  c.asString (Table.orders.cell "meal" row) = .ok o.Meal ∧
  c.asNumber (Table.orders.cell "price" row) = .ok o.Price ∧
  c.asString (Table.orders.cell "image" row) = .ok o.Image ∧
  c.asInt (Table.orders.cell "plates" row) = .ok o.Plates ∧
  c.asNumber (Table.orders.cell "totalcost" row) = .ok o.TotalCost

/-- The record `k` carries the fields of the stored customers row `row`. -/
def Customer.Carries (c : Convert) (row : List Value) (k : Customer) : Prop :=
  c.asString (Table.customers.cell "customer_name" row) = .ok k.Name ∧
  c.asString (Table.customers.cell "location_address" row) = .ok k.Address ∧
  c.asString (Table.customers.cell "meal" row) = .ok k.Meal ∧
  c.asNumber (Table.customers.cell "totalcost" row) = .ok k.TotalCost

/-! ### Sample data -/

/-- A failure of the connection. -/
def connectionReset : Error := ⟨"read tcp: connection reset by peer"⟩

/-- A meal. -/
def rice : Meal := ⟨"Rice", 5, "rice.jpg"⟩

/-- An order as a caller passes it to `CreateOrders`, the id not yet assigned. -/
def pasta : Order := ⟨0, "Pasta", 12, "pasta.jpg", 2, 25⟩

/-- A customer. -/
def ada : Customer := ⟨"Ada", "1 Main Street", "Pasta", 25⟩

/-- The stored row of `rice`. -/
def riceRow : List Value := [.str "Rice", .num 5, .str "rice.jpg"]

/-- A second meal row. -/
def beansRow : List Value := [.str "Beans", .num 4, .str "beans.jpg"]

/-- A stored order row, with id 1. -/
def pastaRow : List Value := [.int 1, .str "Pasta", .num 12, .str "pasta.jpg", .int 2, .num 25]

/-- A second order row, with id 2. -/
def beansOrderRow : List Value :=
  [.int 2, .str "Beans", .num 4, .str "beans.jpg", .int 1, .num 4]

/-- The stored row of `ada`. -/
def adaRow : List Value := [.str "Ada", .str "1 Main Street", .str "Pasta", .num 25]

/-- A second customer row. -/
def bobRow : List Value := [.str "Bob", .str "2 Side Street", .str "Beans", .num 4]

/-- A database with one row in each table that serves every statement. -/
def stocked : Database := ⟨[riceRow], [pastaRow], [adaRow], 2, []⟩

/-- The empty database that serves every statement. -/
def emptyDatabase : Database := ⟨[], [], [], 1, []⟩

/-- A row of `meal` whose price is NULL. -/
def yamRow : List Value := [.str "Yam", .null, .str "yam.jpg"]

/-- A cursor over meals whose second row does not decode. -/
def mealsWithNull : Rows := ⟨[riceRow, yamRow], none, none⟩

/-- A cursor over orders whose second row has no id. -/
def ordersWithNull : Rows :=
  ⟨[pastaRow, [.null, .str "Yam", .num 7, .str "yam.jpg", .int 1, .num 7]], none, none⟩

/-- A cursor over customers whose second row is too short. -/
def customersTooShort : Rows := ⟨[adaRow, [.str "Bob"]], none, none⟩

/-- A cursor that delivers one meal and then loses the connection: `Next`
reports false and `rows.Err()` holds the failure. -/
def mealsCutShort : Rows := ⟨[riceRow], some connectionReset, none⟩

/-- A cursor that delivers one order and then loses the connection. -/
def ordersCutShort : Rows := ⟨[pastaRow], some connectionReset, none⟩

/-- A cursor that delivers one customer and then loses the connection. -/
def customersCutShort : Rows := ⟨[adaRow], some connectionReset, none⟩

/-- A cursor over one meal that ends normally. -/
def oneMeal : Rows := Rows.ofList [riceRow]

/-- A cursor over one order that ends normally. -/
def oneOrder : Rows := Rows.ofList [pastaRow]

/-- A cursor over one customer that ends normally. -/
def oneCustomer : Rows := Rows.ofList [adaRow]

/-- A database with two rows in each table whose connection fails during the
next statement after one row has been fetched. -/
def cutAfterOne : Database :=
  ⟨[riceRow, beansRow], [pastaRow, beansOrderRow], [adaRow, bobRow], 3,
    [some (.cut 1 connectionReset)]⟩

/-- A database with one row in each table that refuses the next statement. -/
def offline : Database :=
  ⟨[riceRow], [pastaRow], [adaRow], 2, [some (.refuse connectionReset)]⟩

/-- A database that serves the next statement and refuses the one after it. -/
def failsSecond : Database := ⟨[], [pastaRow], [], 2, [none, some (.refuse connectionReset)]⟩

/-- A database without orders that refuses the next statement. -/
def offlineNoOrders : Database :=
  ⟨[riceRow], [], [adaRow], 2, [some (.refuse connectionReset)]⟩

/-- The answer to an insert that returns the generated id 7. -/
def idReturned : Rows := Rows.ofList [[.int 7]]

/-- An answer without error and without a row. -/
def noRowReturned : Rows := Rows.ofList []

/-- An answer without error whose row holds a NULL id. -/
def nullIdReturned : Rows := Rows.ofList [[.null]]

/-- An answer without error whose cursor fails to close. -/
def closeFails : Rows := ⟨[[.int 7]], none, some connectionReset⟩

/-! ## Part 4: lemmas and theorems -/

/-- When every row decodes, the loop returns the decoded rows after `acc`. -/
theorem scanLoop_ok {α : Type} (scan : List Value → Except Error α) :
    ∀ (rows : List (List Value)) (xs acc : List α),
      List.Forall₂ (fun row a => scan row = .ok a) rows xs →
      scanLoop scan rows acc = (some (acc ++ xs), none) := by
  intro rows
  induction rows with
  | nil =>
    intro xs acc h
    cases h
    simp [scanLoop]
  | cons row rest ih =>
    intro xs acc h
    cases h with
    | cons hrow hrest =>
      simp [scanLoop, hrow, ih _ _ hrest]

/-- When the loop ends without error, every row decoded and the result is the
decoded rows after `acc`. -/
theorem scanLoop_inv {α : Type} (scan : List Value → Except Error α) :
    ∀ (rows : List (List Value)) (acc : List α),
      (scanLoop scan rows acc).2 = none →
      ∃ xs, List.Forall₂ (fun row a => scan row = .ok a) rows xs ∧
        (scanLoop scan rows acc).1 = some (acc ++ xs) := by
  intro rows
  induction rows with
  | nil =>
    intro acc _
    exact ⟨[], List.Forall₂.nil, by simp [scanLoop]⟩
  | cons row rest ih =>
    intro acc h
    cases hrow : scan row with
    | error e => simp [scanLoop, hrow] at h
    | ok a =>
      simp only [scanLoop, hrow] at h ⊢
      obtain ⟨xs, hxs, hres⟩ := ih _ h
      exact ⟨a :: xs, List.Forall₂.cons hrow hxs, by simp [hres]⟩

/-- When rows `0..k-1` decode and row `k` does not, the loop returns the nil
slice and the error of row `k`. -/
theorem scanLoop_fail {α : Type} (scan : List Value → Except Error α) :
    ∀ (rows : List (List Value)) (k : Nat) (bad : List Value) (e : Error) (acc : List α),
      rows[k]? = some bad →
      (∀ i, i < k → ∀ r, rows[i]? = some r → ∃ a, scan r = .ok a) →
      scan bad = .error e →
      scanLoop scan rows acc = (none, some e) := by
  intro rows
  induction rows with
  | nil =>
    intro k bad e acc hk
    simp at hk
  | cons row rest ih =>
    intro k bad e acc hk hpre hbad
    cases k with
    | zero =>
      simp at hk
      subst hk
      simp [scanLoop, hbad]
    | succ k =>
      obtain ⟨a, ha⟩ := hpre 0 (Nat.succ_pos k) row (by simp)
      simp only [scanLoop, ha]
      apply ih k bad e _ (by simpa using hk) _ hbad
      intro i hi r hr
      exact hpre (i + 1) (Nat.succ_lt_succ hi) r (by simpa using hr)

/-! ### The reference database on the statements of the store -/

theorem parse_sqlGetMeals :
    parseSQL sqlGetMeals = some (.select ["food", "price", "image"] "meal") := by decide

theorem parse_sqlGetOrders :
    parseSQL sqlGetOrders =
      some (.select ["id", "meal", "price", "image", "plates", "totalcost"] "orders") := by
  decide

theorem parse_sqlGetCustomer :
    parseSQL sqlGetCustomer =
      some (.select ["customer_name", "location_address", "meal", "totalcost"] "customers") := by
  decide

theorem parse_sqlCreateMeals :
    parseSQL sqlCreateMeals = some (.insert "meal" ["food", "price", "image"] [1, 2, 3] none) := by
  decide

theorem parse_sqlCreateOrders :
    parseSQL sqlCreateOrders =
      some (.insert "orders" ["meal", "price", "image", "plates", "totalcost"] [1, 2, 3, 4, 5]
        (some "id")) := by
  decide

theorem parse_sqlCreateCustomer :
    parseSQL sqlCreateCustomer =
      some (.insert "customers" ["customer_name", "location_address", "meal", "totalcost"]
        [1, 2, 3, 4] none) := by
  decide

theorem parse_sqlDeleteOrders : parseSQL sqlDeleteOrders = some (.delete "orders" none) := by
  decide

theorem parse_sqlDeleteMealOrder :
    parseSQL sqlDeleteMealOrder = some (.delete "orders" (some ("id", 1))) := by
  decide


/-- A refused statement: the error of the refusal, tables untouched. -/
theorem exec_refused (d : Database) (e : Error) (q : String) (args : List Value)
    (h : d.due = some (.refuse e)) : d.exec q args = (d.next, .error e) := by
  simp [Database.exec, h]

/-- An executed statement: the tables after it and its cursor, subject to the
failure due. -/
theorem exec_served (d : Database) (q : String) (args : List Value) (stmt : Stmt)
    (d1 : Database) (rows : Rows) (h : d.serves = true) (hp : parseSQL q = some stmt)
    (hr : d.next.run args stmt = (d1, .ok rows)) :
    d.exec q args = (d1, .ok (Fault.spoil d.due rows)) := by
  unfold Database.serves at h
  unfold Database.exec
  cases hd : d.due with
  | none => simp [hp, hr]
  | some f =>
    cases f with
    | refuse e => simp [hd] at h
    | cut n e => simp [hp, hr]

/-- With no failure due the cursor is whole. -/
theorem spoil_of_accepts (d : Database) (rows : Rows) (h : d.accepts = true) :
    Fault.spoil d.due rows = rows := by
  unfold Database.accepts at h
  cases hd : d.due with
  | none => rfl
  | some f => simp [hd] at h

/-- A cursor without rows delivers none, whatever failure is due. -/
theorem spoil_pending_nil (f : Option Fault) (rows : Rows) (h : rows.pending = []) :
    (Fault.spoil f rows).pending = [] := by
  cases f with
  | none => exact h
  | some f =>
    cases f with
    | refuse e => exact h
    | cut n e => simp [Fault.spoil, h]

/-- A database that serves in full executes. -/
theorem serves_of_accepts (d : Database) (h : d.accepts = true) : d.serves = true := by
  unfold Database.accepts at h
  unfold Database.serves
  cases hd : d.due with
  | none => rfl
  | some f => simp [hd] at h

/-- Either the next statement is executed or a refusal is due. -/
theorem serves_or_refused (d : Database) :
    d.serves = true ∨ ∃ e, d.due = some (.refuse e) := by
  unfold Database.serves
  cases hd : d.due with
  | none => exact Or.inl rfl
  | some f =>
    cases f with
    | refuse e => exact Or.inr ⟨e, rfl⟩
    | cut n e => exact Or.inl rfl

theorem run_getMeals (d : Database) :
    d.run [] (.select ["food", "price", "image"] "meal") =
      (d, .ok (Rows.ofList (d.meal.map (fun row =>
        [Table.meal.cell "food" row, Table.meal.cell "price" row,
          Table.meal.cell "image" row])))) := rfl

theorem run_getOrders (d : Database) :
    d.run [] (.select ["id", "meal", "price", "image", "plates", "totalcost"] "orders") =
      (d, .ok (Rows.ofList (d.orders.map (fun row =>
        [Table.orders.cell "id" row, Table.orders.cell "meal" row,
          Table.orders.cell "price" row, Table.orders.cell "image" row,
          Table.orders.cell "plates" row, Table.orders.cell "totalcost" row])))) := rfl

theorem run_getCustomer (d : Database) :
    d.run [] (.select ["customer_name", "location_address", "meal", "totalcost"]
      "customers") =
      (d, .ok (Rows.ofList (d.customers.map (fun row =>
        [Table.customers.cell "customer_name" row,
          Table.customers.cell "location_address" row, Table.customers.cell "meal" row,
          Table.customers.cell "totalcost" row])))) := rfl

theorem run_createMeals (d : Database) (a b c : Value) :
    d.run [a, b, c] (.insert "meal" ["food", "price", "image"] [1, 2, 3] none) =
      (⟨d.meal ++ [[a, b, c]], d.orders, d.customers, d.nextId, d.faults⟩,
        .ok (Rows.ofList [])) := rfl

theorem run_createOrders (d : Database) (a b c p t : Value) :
    d.run [a, b, c, p, t] (.insert "orders" ["meal", "price", "image", "plates", "totalcost"]
      [1, 2, 3, 4, 5] (some "id")) =
      (⟨d.meal, d.orders ++ [[.int d.nextId, a, b, c, p, t]], d.customers, d.nextId + 1,
          d.faults⟩,
        .ok (Rows.ofList [[.int d.nextId]])) := rfl

theorem run_createCustomer (d : Database) (a b c t : Value) :
    d.run [a, b, c, t] (.insert "customers"
      ["customer_name", "location_address", "meal", "totalcost"] [1, 2, 3, 4] none) =
      (⟨d.meal, d.orders, d.customers ++ [[a, b, c, t]], d.nextId, d.faults⟩,
        .ok (Rows.ofList [])) := rfl

theorem run_deleteOrders (d : Database) :
    d.run [] (.delete "orders" none) =
      (⟨d.meal, [], d.customers, d.nextId, d.faults⟩, .ok (Rows.ofList [])) := rfl

theorem run_deleteMealOrder (d : Database) (id : Int) :
    d.run [.int id] (.delete "orders" (some ("id", 1))) =
      (⟨d.meal, d.orders.filter (fun row => !(sqlEq (Table.orders.cell "id" row) (.int id))),
          d.customers, d.nextId, d.faults⟩,
        .ok (Rows.ofList [])) := rfl

/-- Against an integer, SQL equality is equality. -/
theorem sqlEq_int (v : Value) (id : Int) : sqlEq v (.int id) = decide (v = .int id) := by
  cases v <;> simp [sqlEq]

/-- A related pair exists for every member of the left list. -/
theorem forall₂_mem_left {α β : Type} {R : α → β → Prop} :
    ∀ {l : List α} {xs : List β}, List.Forall₂ R l xs → ∀ a ∈ l, ∃ x ∈ xs, R a x := by
  intro l xs h
  induction h with
  | nil => intro a ha; simp at ha
  | cons hab _ ih =>
    intro a ha
    rcases List.mem_cons.mp ha with rfl | ha
    · exact ⟨_, List.mem_cons_self _ _, hab⟩
    · obtain ⟨x, hx, hr⟩ := ih a ha
      exact ⟨x, List.mem_cons_of_mem _ hx, hr⟩

/-- A list of related partners exists when every member has one. -/
theorem forall₂_of_forall_exists {α β : Type} {R : α → β → Prop} :
    ∀ (l : List α), (∀ a ∈ l, ∃ x, R a x) → ∃ xs, List.Forall₂ R l xs := by
  intro l
  induction l with
  | nil => intro _; exact ⟨[], List.Forall₂.nil⟩
  | cons a rest ih =>
    intro h
    obtain ⟨x, hx⟩ := h a (List.mem_cons_self _ _)
    obtain ⟨xs, hxs⟩ := ih (fun b hb => h b (List.mem_cons_of_mem _ hb))
    exact ⟨x :: xs, List.Forall₂.cons hx hxs⟩

/-! ### The store over an arbitrary database -/

/-- The world after `CreateOrders` has one more statement in its log. -/
theorem CreateOrders_sent {σ : Type} (store : dbStore σ) (w : World σ) (orders : Order) :
    (CreateOrders store w orders).world.sent = w.sent ++ [(sqlCreateOrders,
      [.str orders.Meal, .num orders.Price, .str orders.Image, .int orders.Plates,
        .num orders.TotalCost])] := by
  unfold CreateOrders DB.QueryRowScan DB.Query
  rcases store.db.query w.state sqlCreateOrders _ with ⟨s, r⟩
  cases r with
  | error e => rfl
  | ok rows =>
    rcases rows with ⟨pending, err, closeErr⟩
    cases pending with
    | nil => rfl
    | cons row rest =>
      simp only
      cases store.db.convert.scanId row with
      | error e => rfl
      | ok a => cases closeErr <;> rfl

/-- The error `CreateOrders` returns is the error of its database call. -/
theorem CreateOrders_err {σ : Type} (store : dbStore σ) (w : World σ) (orders : Order) :
    (CreateOrders store w orders).err = (store.db.QueryRowScan w sqlCreateOrders
      [.str orders.Meal, .num orders.Price, .str orders.Image, .int orders.Plates,
        .num orders.TotalCost] store.db.convert.scanId).2.2 := by
  unfold CreateOrders
  simp only
  split <;> simp_all

/-- The error `CreateOrders` returns, read off the answer of the database to its
one statement. -/
theorem CreateOrders_err_cases {σ : Type} (store : dbStore σ) (w : World σ) (orders : Order) :
    (CreateOrders store w orders).err =
      match (store.db.query w.state sqlCreateOrders
        [.str orders.Meal, .num orders.Price, .str orders.Image, .int orders.Plates,
          .num orders.TotalCost]).2 with
      | .error e => some e
      | .ok rows =>
        match rows.pending with
        | [] => some (rows.err.getD ErrNoRows)
        | row :: _ =>
          match store.db.convert.scanId row with
          | .error e => some e
          | .ok _ => rows.closeErr := by
  rw [CreateOrders_err]
  unfold DB.QueryRowScan DB.Query
  rcases store.db.query w.state sqlCreateOrders _ with ⟨s, r⟩
  cases r with
  | error e => rfl
  | ok rows =>
    rcases rows with ⟨pending, err, closeErr⟩
    cases pending with
    | nil => rfl
    | cons row rest =>
      simp only
      cases store.db.convert.scanId row with
      | error e => rfl
      | ok a => rfl

/-- **C6 as stated fails.** For `CreateOrders` the returned error is not nil
exactly when the database reported no error: the database answers the insert
without error, and `CreateOrders` returns `sql.ErrNoRows` when the answer holds
no row, the error of `Scan` when the returned id is NULL, and the error of
`Close` when the cursor fails to close. -/
theorem CreateOrders_error_without_database_error :
    (errOf ((scripted (.ok noRowReturned)).db.query () sqlCreateOrders
        [.str pasta.Meal, .num pasta.Price, .str pasta.Image, .int pasta.Plates,
          .num pasta.TotalCost]).2 = none ∧
      (CreateOrders (scripted (.ok noRowReturned)) (World.start ()) pasta).err =
        some ErrNoRows) ∧
    (errOf ((scripted (.ok nullIdReturned)).db.query () sqlCreateOrders
        [.str pasta.Meal, .num pasta.Price, .str pasta.Image, .int pasta.Plates,
          .num pasta.TotalCost]).2 = none ∧
      (CreateOrders (scripted (.ok nullIdReturned)) (World.start ()) pasta).err =
        some ⟨"sql: Scan error: unsupported conversion to int64"⟩) ∧
    (errOf ((scripted (.ok closeFails)).db.query () sqlCreateOrders
        [.str pasta.Meal, .num pasta.Price, .str pasta.Image, .int pasta.Plates,
          .num pasta.TotalCost]).2 = none ∧
      (CreateOrders (scripted (.ok closeFails)) (World.start ()) pasta).err =
        some connectionReset) := by
  decide

/-- **C6, amended.** Errors are propagated unmodified. Each of `CreateMeals`,
`CreateCustomer`, `DeleteOrders` and `DeleteMealOrder` sends exactly one
statement and returns exactly the error the database answered it with (nil
exactly when the database answered without error). `CreateOrders` sends exactly
one statement and returns, unwrapped, the error of its one call
`QueryRow(...).Scan(&id)`: the error of the database when the database reports
one; when the database answers without error, `rows.Err()` or else
`sql.ErrNoRows` if the answer holds no row, the error of `Scan` if the id of the
first row does not convert, and the error of `Close` otherwise. So it returns
nil exactly when the database answers without error with a row whose id scans
and a cursor that closes without error. It prints one line with the wrapped
message exactly when the returned error is non-nil. -/
theorem errors_propagated_unmodified {σ : Type} (store : dbStore σ) (w : World σ)
    (meal : Meal) (orders : Order) (customer : Customer) (id : Int) :
    ((CreateMeals store w meal).2 = errOf (store.db.query w.state sqlCreateMeals
        [.str meal.Food, .num meal.Price, .str meal.Image]).2 ∧
      (CreateMeals store w meal).1.sent = w.sent ++ [(sqlCreateMeals,
        [.str meal.Food, .num meal.Price, .str meal.Image])]) ∧
    ((CreateCustomer store w customer).2 = errOf (store.db.query w.state sqlCreateCustomer
        [.str customer.Name, .str customer.Address, .str customer.Meal,
          .num customer.TotalCost]).2 ∧
      (CreateCustomer store w customer).1.sent = w.sent ++ [(sqlCreateCustomer,
        [.str customer.Name, .str customer.Address, .str customer.Meal,
          .num customer.TotalCost])]) ∧
    ((DeleteOrders store w).2 = errOf (store.db.query w.state sqlDeleteOrders []).2 ∧
      (DeleteOrders store w).1.sent = w.sent ++ [(sqlDeleteOrders, [])]) ∧
    ((DeleteMealOrder store w id).2 =
        errOf (store.db.query w.state sqlDeleteMealOrder [.int id]).2 ∧
      (DeleteMealOrder store w id).1.sent = w.sent ++ [(sqlDeleteMealOrder, [.int id])]) ∧
    ((CreateOrders store w orders).world.sent = w.sent ++ [(sqlCreateOrders,
        [.str orders.Meal, .num orders.Price, .str orders.Image, .int orders.Plates,
          .num orders.TotalCost])] ∧
      (∀ e, (store.db.query w.state sqlCreateOrders
        [.str orders.Meal, .num orders.Price, .str orders.Image, .int orders.Plates,
          .num orders.TotalCost]).2 = .error e → (CreateOrders store w orders).err = some e) ∧
      (∀ rows, (store.db.query w.state sqlCreateOrders
        [.str orders.Meal, .num orders.Price, .str orders.Image, .int orders.Plates,
          .num orders.TotalCost]).2 = .ok rows → rows.pending = [] →
        (CreateOrders store w orders).err = some (rows.err.getD ErrNoRows)) ∧
      (∀ rows row rest e, (store.db.query w.state sqlCreateOrders
        [.str orders.Meal, .num orders.Price, .str orders.Image, .int orders.Plates,
          .num orders.TotalCost]).2 = .ok rows → rows.pending = row :: rest →
        store.db.convert.scanId row = .error e →
        (CreateOrders store w orders).err = some e) ∧
      (∀ rows row rest a, (store.db.query w.state sqlCreateOrders
        [.str orders.Meal, .num orders.Price, .str orders.Image, .int orders.Plates,
          .num orders.TotalCost]).2 = .ok rows → rows.pending = row :: rest →
        store.db.convert.scanId row = .ok a →
        (CreateOrders store w orders).err = rows.closeErr) ∧
      ((CreateOrders store w orders).err = none ↔
        ∃ rows row rest a, (store.db.query w.state sqlCreateOrders
          [.str orders.Meal, .num orders.Price, .str orders.Image, .int orders.Plates,
            .num orders.TotalCost]).2 = .ok rows ∧ rows.pending = row :: rest ∧
          store.db.convert.scanId row = .ok a ∧ rows.closeErr = none) ∧
      (CreateOrders store w orders).world.stdout = w.stdout ++
        (match (CreateOrders store w orders).err with
          | some e => ["unable to execute the query: " ++ e.msg]
          | none => [])) := by
  refine ⟨⟨rfl, rfl⟩, ⟨rfl, rfl⟩, ⟨rfl, rfl⟩, ⟨rfl, rfl⟩, CreateOrders_sent store w orders,
    ?_, ?_, ?_, ?_, ?_, ?_⟩
  · intro e he
    rw [CreateOrders_err_cases, he]
  · intro rows hq hp
    rw [CreateOrders_err_cases, hq]
    simp only [hp]
  · intro rows row rest e hq hp hs
    rw [CreateOrders_err_cases, hq]
    simp only [hp, hs]
  · intro rows row rest a hq hp hs
    rw [CreateOrders_err_cases, hq]
    simp only [hp, hs]
  · rw [CreateOrders_err_cases]
    constructor
    · intro h
      rcases hq : (store.db.query w.state sqlCreateOrders
        [.str orders.Meal, .num orders.Price, .str orders.Image, .int orders.Plates,
          .num orders.TotalCost]).2 with e | rows
      · rw [hq] at h
        simp at h
      · rw [hq] at h
        rcases hp : rows.pending with _ | ⟨row, rest⟩
        · simp [hp] at h
        · rcases hs : store.db.convert.scanId row with e | a
          · simp [hp, hs] at h
          · simp only [hp, hs] at h
            exact ⟨rows, row, rest, a, rfl, hp, hs, h⟩
    · rintro ⟨rows, row, rest, a, hq, hp, hs, hc⟩
      rw [hq]
      simp only [hp, hs, hc]
  · unfold CreateOrders DB.QueryRowScan DB.Query
    rcases store.db.query w.state sqlCreateOrders _ with ⟨s, r⟩
    cases r with
    | error e => rfl
    | ok rows =>
      rcases rows with ⟨pending, err, closeErr⟩
      cases pending with
      | nil => rfl
      | cons row rest =>
        simp only
        cases store.db.convert.scanId row with
        | error e => rfl
        | ok a => cases closeErr <;> simp

/-- **C9.** `CreateOrders` leaves the caller's Order record unchanged: for every
order and every database, the record behind the pointer after the call equals
the record before it, field `ID` included; the id the database generated ends
in the local variable `id` and nowhere else. -/
theorem CreateOrders_keeps_record {σ : Type} (store : dbStore σ) (w : World σ)
    (orders : Order) :
    (CreateOrders store w orders).orders = orders ∧
    (CreateOrders store w orders).orders.ID = orders.ID ∧
    (CreateOrders store w orders).id = ((store.db.QueryRowScan w sqlCreateOrders
      [.str orders.Meal, .num orders.Price, .str orders.Image, .int orders.Plates,
        .num orders.TotalCost] store.db.convert.scanId).2.1).getD 0 := by
  have h : (CreateOrders store w orders).orders = orders := by
    unfold CreateOrders
    simp only
    split <;> rfl
  refine ⟨h, by rw [h], ?_⟩
  unfold CreateOrders
  simp only
  split <;> rfl

/-- The readers log their one statement. -/
theorem GetMeals_sent {σ : Type} (store : dbStore σ) (w : World σ) :
    (GetMeals store w).1.sent = w.sent ++ [(sqlGetMeals, [])] := by
  unfold GetMeals DB.Query
  rcases store.db.query w.state sqlGetMeals [] with ⟨s, r⟩
  cases r <;> rfl

theorem GetOrders_sent {σ : Type} (store : dbStore σ) (w : World σ) :
    (GetOrders store w).1.sent = w.sent ++ [(sqlGetOrders, [])] := by
  unfold GetOrders DB.Query
  rcases store.db.query w.state sqlGetOrders [] with ⟨s, r⟩
  cases r <;> rfl

theorem GetCustomer_sent {σ : Type} (store : dbStore σ) (w : World σ) :
    (GetCustomer store w).1.sent = w.sent ++ [(sqlGetCustomer, [])] := by
  unfold GetCustomer DB.Query
  rcases store.db.query w.state sqlGetCustomer [] with ⟨s, r⟩
  cases r <;> rfl

/-- The text sent last, read off the log. -/
theorem lastText_of_sent {σ : Type} (w : World σ) (l : List (String × List Value))
    (q : String) (args : List Value) (h : w.sent = l ++ [(q, args)]) :
    w.lastText = some q := by
  simp [World.lastText, h]

/-- **C10.** Statements are parameterized only. Every method sends one statement
whose text is a constant of the program and whose positional arguments are the
caller's values in the order of the placeholders: two calls of a method, in any
two worlds and with any two inputs, send the same text. Read by the SQL grammar,
each text has the placeholders `$1..$n` in order, as many as there are
arguments, one per listed column. -/
theorem statements_are_parameterized {σ : Type} (store : dbStore σ) (w w2 : World σ)
    (meal meal2 : Meal) (orders orders2 : Order) (customer customer2 : Customer)
    (id id2 : Int) :
    ((CreateMeals store w meal).1.sent = w.sent ++ [(sqlCreateMeals,
        [.str meal.Food, .num meal.Price, .str meal.Image])] ∧
      (CreateMeals store w meal).1.lastText = (CreateMeals store w2 meal2).1.lastText ∧
      parseSQL sqlCreateMeals =
        some (.insert "meal" ["food", "price", "image"] [1, 2, 3] none)) ∧
    ((CreateOrders store w orders).world.sent = w.sent ++ [(sqlCreateOrders,
        [.str orders.Meal, .num orders.Price, .str orders.Image, .int orders.Plates,
          .num orders.TotalCost])] ∧
      (CreateOrders store w orders).world.lastText =
        (CreateOrders store w2 orders2).world.lastText ∧
      parseSQL sqlCreateOrders =
        some (.insert "orders" ["meal", "price", "image", "plates", "totalcost"]
          [1, 2, 3, 4, 5] (some "id"))) ∧
    ((CreateCustomer store w customer).1.sent = w.sent ++ [(sqlCreateCustomer,
        [.str customer.Name, .str customer.Address, .str customer.Meal,
          .num customer.TotalCost])] ∧
      (CreateCustomer store w customer).1.lastText =
        (CreateCustomer store w2 customer2).1.lastText ∧
      parseSQL sqlCreateCustomer =
        some (.insert "customers" ["customer_name", "location_address", "meal", "totalcost"]
          [1, 2, 3, 4] none)) ∧
    ((DeleteOrders store w).1.sent = w.sent ++ [(sqlDeleteOrders, [])] ∧
      (DeleteOrders store w).1.lastText = (DeleteOrders store w2).1.lastText ∧
      parseSQL sqlDeleteOrders = some (.delete "orders" none)) ∧
    ((DeleteMealOrder store w id).1.sent = w.sent ++ [(sqlDeleteMealOrder, [.int id])] ∧
      (DeleteMealOrder store w id).1.lastText = (DeleteMealOrder store w2 id2).1.lastText ∧
      parseSQL sqlDeleteMealOrder = some (.delete "orders" (some ("id", 1)))) ∧
    ((GetMeals store w).1.sent = w.sent ++ [(sqlGetMeals, [])] ∧
      (GetMeals store w).1.lastText = (GetMeals store w2).1.lastText ∧
      parseSQL sqlGetMeals = some (.select ["food", "price", "image"] "meal")) ∧
    ((GetOrders store w).1.sent = w.sent ++ [(sqlGetOrders, [])] ∧
      (GetOrders store w).1.lastText = (GetOrders store w2).1.lastText ∧
      parseSQL sqlGetOrders =
        some (.select ["id", "meal", "price", "image", "plates", "totalcost"] "orders")) ∧
    ((GetCustomer store w).1.sent = w.sent ++ [(sqlGetCustomer, [])] ∧
      (GetCustomer store w).1.lastText = (GetCustomer store w2).1.lastText ∧
      parseSQL sqlGetCustomer =
        some (.select ["customer_name", "location_address", "meal", "totalcost"]
          "customers")) := by
  refine ⟨⟨rfl, ?_, parse_sqlCreateMeals⟩, ⟨CreateOrders_sent store w orders, ?_,
    parse_sqlCreateOrders⟩, ⟨rfl, ?_, parse_sqlCreateCustomer⟩,
    ⟨rfl, ?_, parse_sqlDeleteOrders⟩, ⟨rfl, ?_, parse_sqlDeleteMealOrder⟩,
    ⟨GetMeals_sent store w, ?_, parse_sqlGetMeals⟩,
    ⟨GetOrders_sent store w, ?_, parse_sqlGetOrders⟩,
    ⟨GetCustomer_sent store w, ?_, parse_sqlGetCustomer⟩⟩
  · rw [lastText_of_sent _ _ _ _ rfl, lastText_of_sent _ _ _ _ rfl]
  · rw [lastText_of_sent _ _ _ _ (CreateOrders_sent store w orders),
      lastText_of_sent _ _ _ _ (CreateOrders_sent store w2 orders2)]
  · rw [lastText_of_sent _ _ _ _ rfl, lastText_of_sent _ _ _ _ rfl]
  · rw [lastText_of_sent _ _ _ _ rfl, lastText_of_sent _ _ _ _ rfl]
  · rw [lastText_of_sent _ _ _ _ rfl, lastText_of_sent _ _ _ _ rfl]
  · rw [lastText_of_sent _ _ _ _ (GetMeals_sent store w),
      lastText_of_sent _ _ _ _ (GetMeals_sent store w2)]
  · rw [lastText_of_sent _ _ _ _ (GetOrders_sent store w),
      lastText_of_sent _ _ _ _ (GetOrders_sent store w2)]
  · rw [lastText_of_sent _ _ _ _ (GetCustomer_sent store w),
      lastText_of_sent _ _ _ _ (GetCustomer_sent store w2)]

/-- What a reader returns once its query has been answered with a cursor. -/
theorem GetMeals_of_rows {σ : Type} (store : dbStore σ) (w : World σ) (s : σ) (rows : Rows)
    (hq : store.db.query w.state sqlGetMeals [] = (s, .ok rows)) :
    (GetMeals store w).2 = scanLoop store.db.convert.scanMeal rows.pending [] := by
  simp [GetMeals, DB.Query, hq]

theorem GetOrders_of_rows {σ : Type} (store : dbStore σ) (w : World σ) (s : σ) (rows : Rows)
    (hq : store.db.query w.state sqlGetOrders [] = (s, .ok rows)) :
    (GetOrders store w).2 = scanLoop store.db.convert.scanOrder rows.pending [] := by
  simp [GetOrders, DB.Query, hq]

theorem GetCustomer_of_rows {σ : Type} (store : dbStore σ) (w : World σ) (s : σ) (rows : Rows)
    (hq : store.db.query w.state sqlGetCustomer [] = (s, .ok rows)) :
    (GetCustomer store w).2 = scanLoop store.db.convert.scanCustomer rows.pending [] := by
  simp [GetCustomer, DB.Query, hq]

/-- What a reader returns once its query has been refused. -/
theorem GetMeals_of_error {σ : Type} (store : dbStore σ) (w : World σ) (s : σ) (e : Error)
    (hq : store.db.query w.state sqlGetMeals [] = (s, .error e)) :
    (GetMeals store w).2 = (none, some e) := by
  simp [GetMeals, DB.Query, hq]

theorem GetOrders_of_error {σ : Type} (store : dbStore σ) (w : World σ) (s : σ) (e : Error)
    (hq : store.db.query w.state sqlGetOrders [] = (s, .error e)) :
    (GetOrders store w).2 = (none, some e) := by
  simp [GetOrders, DB.Query, hq]

theorem GetCustomer_of_error {σ : Type} (store : dbStore σ) (w : World σ) (s : σ) (e : Error)
    (hq : store.db.query w.state sqlGetCustomer [] = (s, .error e)) :
    (GetCustomer store w).2 = (none, some e) := by
  simp [GetCustomer, DB.Query, hq]

/-- **C4.** Decoding failure aborts the whole read. For each reader, every
database and every cursor it answers with: if rows `0..k-1` decode and the scan
of row `k` fails with error `e`, the reader returns the nil slice together with
exactly `e`; none of the `k` records decoded before is returned. -/
theorem decode_failure_aborts_read {σ : Type} (store : dbStore σ) (w : World σ) (s : σ)
    (rows : Rows) (k : Nat) (bad : List Value) (e : Error)
    (hk : rows.pending[k]? = some bad) :
    (store.db.query w.state sqlGetMeals [] = (s, .ok rows) →
      (∀ i, i < k → ∀ r, rows.pending[i]? = some r →
        ∃ m, store.db.convert.scanMeal r = .ok m) →
      store.db.convert.scanMeal bad = .error e →
      (GetMeals store w).2 = (none, some e)) ∧
    (store.db.query w.state sqlGetOrders [] = (s, .ok rows) →
      (∀ i, i < k → ∀ r, rows.pending[i]? = some r →
        ∃ o, store.db.convert.scanOrder r = .ok o) →
      store.db.convert.scanOrder bad = .error e →
      (GetOrders store w).2 = (none, some e)) ∧
    (store.db.query w.state sqlGetCustomer [] = (s, .ok rows) →
      (∀ i, i < k → ∀ r, rows.pending[i]? = some r →
        ∃ c, store.db.convert.scanCustomer r = .ok c) →
      store.db.convert.scanCustomer bad = .error e →
      (GetCustomer store w).2 = (none, some e)) := by
  refine ⟨?_, ?_, ?_⟩
  · intro hq hpre hbad
    rw [GetMeals_of_rows store w s rows hq]
    exact scanLoop_fail _ _ k bad e [] hk hpre hbad
  · intro hq hpre hbad
    rw [GetOrders_of_rows store w s rows hq]
    exact scanLoop_fail _ _ k bad e [] hk hpre hbad
  · intro hq hpre hbad
    rw [GetCustomer_of_rows store w s rows hq]
    exact scanLoop_fail _ _ k bad e [] hk hpre hbad

/-! ### Scanning a row -/

theorem scanMeal_eq_ok_iff (c : Convert) (a b d : Value) (m : Meal) :
    c.scanMeal [a, b, d] = .ok m ↔
      c.asString a = .ok m.Food ∧ c.asNumber b = .ok m.Price ∧ c.asString d = .ok m.Image := by
  rcases m with ⟨f, p, i⟩
  unfold Convert.scanMeal
  cases h1 : c.asString a <;> cases h2 : c.asNumber b <;> cases h3 : c.asString d <;>
    simp [h1, h2, h3]

theorem scanOrder_eq_ok_iff (c : Convert) (a b d e f g : Value) (o : Order) :
    c.scanOrder [a, b, d, e, f, g] = .ok o ↔
      c.asInt a = .ok o.ID ∧ c.asString b = .ok o.Meal ∧ c.asNumber d = .ok o.Price ∧
        c.asString e = .ok o.Image ∧ c.asInt f = .ok o.Plates ∧
        c.asNumber g = .ok o.TotalCost := by
  rcases o with ⟨i, m, p, im, pl, t⟩
  unfold Convert.scanOrder
  cases h1 : c.asInt a <;> cases h2 : c.asString b <;> cases h3 : c.asNumber d <;>
    cases h4 : c.asString e <;> cases h5 : c.asInt f <;> cases h6 : c.asNumber g <;>
    simp [h1, h2, h3, h4, h5, h6]

theorem scanCustomer_eq_ok_iff (c : Convert) (a b d e : Value) (k : Customer) :
    c.scanCustomer [a, b, d, e] = .ok k ↔
      c.asString a = .ok k.Name ∧ c.asString b = .ok k.Address ∧ c.asString d = .ok k.Meal ∧
        c.asNumber e = .ok k.TotalCost := by
  rcases k with ⟨n, ad, m, t⟩
  unfold Convert.scanCustomer
  cases h1 : c.asString a <;> cases h2 : c.asString b <;> cases h3 : c.asString d <;>
    cases h4 : c.asNumber e <;> simp [h1, h2, h3, h4]

/-! ### The readers on the reference database -/

theorem GetMeals_sql (c : Convert) (w : World Database) (h : w.state.serves = true) :
    (GetMeals (sqlStore c) w).2 = scanLoop c.scanMeal (Fault.spoil w.state.due
      (Rows.ofList (w.state.meal.map (fun row => [Table.meal.cell "food" row,
        Table.meal.cell "price" row, Table.meal.cell "image" row])))).pending [] :=
  GetMeals_of_rows (sqlStore c) w _ _
    (exec_served w.state _ _ _ _ _ h parse_sqlGetMeals (run_getMeals _))

theorem GetOrders_sql (c : Convert) (w : World Database) (h : w.state.serves = true) :
    (GetOrders (sqlStore c) w).2 = scanLoop c.scanOrder (Fault.spoil w.state.due
      (Rows.ofList (w.state.orders.map (fun row => [Table.orders.cell "id" row,
        Table.orders.cell "meal" row, Table.orders.cell "price" row,
        Table.orders.cell "image" row, Table.orders.cell "plates" row,
        Table.orders.cell "totalcost" row])))).pending [] :=
  GetOrders_of_rows (sqlStore c) w _ _
    (exec_served w.state _ _ _ _ _ h parse_sqlGetOrders (run_getOrders _))

theorem GetCustomer_sql (c : Convert) (w : World Database) (h : w.state.serves = true) :
    (GetCustomer (sqlStore c) w).2 = scanLoop c.scanCustomer (Fault.spoil w.state.due
      (Rows.ofList (w.state.customers.map (fun row =>
        [Table.customers.cell "customer_name" row, Table.customers.cell "location_address" row,
          Table.customers.cell "meal" row, Table.customers.cell "totalcost" row])))).pending
      [] :=
  GetCustomer_of_rows (sqlStore c) w _ _
    (exec_served w.state _ _ _ _ _ h parse_sqlGetCustomer (run_getCustomer _))

theorem GetMeals_sql_refused (c : Convert) (w : World Database) (e : Error)
    (h : w.state.due = some (.refuse e)) :
    (GetMeals (sqlStore c) w).2 = (none, some e) :=
  GetMeals_of_error (sqlStore c) w w.state.next e (exec_refused w.state e sqlGetMeals [] h)

theorem GetOrders_sql_refused (c : Convert) (w : World Database) (e : Error)
    (h : w.state.due = some (.refuse e)) :
    (GetOrders (sqlStore c) w).2 = (none, some e) :=
  GetOrders_of_error (sqlStore c) w w.state.next e (exec_refused w.state e sqlGetOrders [] h)

theorem GetCustomer_sql_refused (c : Convert) (w : World Database) (e : Error)
    (h : w.state.due = some (.refuse e)) :
    (GetCustomer (sqlStore c) w).2 = (none, some e) :=
  GetCustomer_of_error (sqlStore c) w w.state.next e
    (exec_refused w.state e sqlGetCustomer [] h)

/-- Served in full, `GetMeals` returns one record per stored row that decodes. -/
theorem GetMeals_sql_all (c : Convert) (w : World Database) (h : w.state.accepts = true)
    (hrows : ∀ row ∈ w.state.meal, ∃ m, Meal.Carries c row m) :
    ∃ ms, (GetMeals (sqlStore c) w).2 = (some ms, none) ∧
      List.Forall₂ (Meal.Carries c) w.state.meal ms := by
  obtain ⟨ms, hms⟩ := forall₂_of_forall_exists _ hrows
  refine ⟨ms, ?_, hms⟩
  rw [GetMeals_sql c w (serves_of_accepts _ h), spoil_of_accepts _ _ h]
  have hdec : List.Forall₂ (fun row a => c.scanMeal row = .ok a)
      (w.state.meal.map (fun row => [Table.meal.cell "food" row,
        Table.meal.cell "price" row, Table.meal.cell "image" row])) ms := by
    rw [List.forall₂_map_left_iff]
    exact hms.imp (fun _ _ hr => (scanMeal_eq_ok_iff c _ _ _ _).mpr hr)
  simpa [Rows.ofList] using scanLoop_ok _ _ ms [] hdec

/-- Served in full, `GetOrders` returns one record per stored row that decodes. -/
theorem GetOrders_sql_all (c : Convert) (w : World Database) (h : w.state.accepts = true)
    (hrows : ∀ row ∈ w.state.orders, ∃ o, Order.Carries c row o) :
    ∃ os, (GetOrders (sqlStore c) w).2 = (some os, none) ∧
      List.Forall₂ (Order.Carries c) w.state.orders os := by
  obtain ⟨os, hos⟩ := forall₂_of_forall_exists _ hrows
  refine ⟨os, ?_, hos⟩
  rw [GetOrders_sql c w (serves_of_accepts _ h), spoil_of_accepts _ _ h]
  have hdec : List.Forall₂ (fun row a => c.scanOrder row = .ok a)
      (w.state.orders.map (fun row => [Table.orders.cell "id" row,
        Table.orders.cell "meal" row, Table.orders.cell "price" row,
        Table.orders.cell "image" row, Table.orders.cell "plates" row,
        Table.orders.cell "totalcost" row])) os := by
    rw [List.forall₂_map_left_iff]
    exact hos.imp (fun _ _ hr => (scanOrder_eq_ok_iff c _ _ _ _ _ _ _).mpr hr)
  simpa [Rows.ofList] using scanLoop_ok _ _ os [] hdec

/-- Served in full, `GetCustomer` returns one record per stored row that decodes. -/
theorem GetCustomer_sql_all (c : Convert) (w : World Database) (h : w.state.accepts = true)
    (hrows : ∀ row ∈ w.state.customers, ∃ k, Customer.Carries c row k) :
    ∃ ks, (GetCustomer (sqlStore c) w).2 = (some ks, none) ∧
      List.Forall₂ (Customer.Carries c) w.state.customers ks := by
  obtain ⟨ks, hks⟩ := forall₂_of_forall_exists _ hrows
  refine ⟨ks, ?_, hks⟩
  rw [GetCustomer_sql c w (serves_of_accepts _ h), spoil_of_accepts _ _ h]
  have hdec : List.Forall₂ (fun row a => c.scanCustomer row = .ok a)
      (w.state.customers.map (fun row => [Table.customers.cell "customer_name" row,
        Table.customers.cell "location_address" row, Table.customers.cell "meal" row,
        Table.customers.cell "totalcost" row])) ks := by
    rw [List.forall₂_map_left_iff]
    exact hks.imp (fun _ _ hr => (scanCustomer_eq_ok_iff c _ _ _ _ _).mpr hr)
  simpa [Rows.ofList] using scanLoop_ok _ _ ks [] hdec

/-- **C2.** Read-all returns every row. For any database: when the query is
answered with a cursor that runs to its end without failure and every row it
delivers decodes, each reader returns a nil error and a non-nil slice holding
one record per row, the scan of that row, in the order of the rows and of the
same length. On the reference database, for every content of the tables: when
the query is served in full and every stored row decodes, the records are one
per stored row and each carries the fields of its row column by column (for
`GetOrders`: id, meal, price, image, plates, totalcost). -/
theorem read_all_returns_every_row {σ : Type} (store : dbStore σ) (w : World σ) (c : Convert)
    (v : World Database) :
    ((∀ s rows, store.db.query w.state sqlGetMeals [] = (s, .ok rows) → rows.err = none →
        (∀ row ∈ rows.pending, ∃ m, store.db.convert.scanMeal row = .ok m) →
        ∃ ms, (GetMeals store w).2 = (some ms, none) ∧ ms.length = rows.pending.length ∧
          List.Forall₂ (fun row m => store.db.convert.scanMeal row = .ok m)
            rows.pending ms) ∧
      (∀ s rows, store.db.query w.state sqlGetOrders [] = (s, .ok rows) → rows.err = none →
        (∀ row ∈ rows.pending, ∃ o, store.db.convert.scanOrder row = .ok o) →
        ∃ os, (GetOrders store w).2 = (some os, none) ∧ os.length = rows.pending.length ∧
          List.Forall₂ (fun row o => store.db.convert.scanOrder row = .ok o)
            rows.pending os) ∧
      (∀ s rows, store.db.query w.state sqlGetCustomer [] = (s, .ok rows) →
        rows.err = none →
        (∀ row ∈ rows.pending, ∃ k, store.db.convert.scanCustomer row = .ok k) →
        ∃ ks, (GetCustomer store w).2 = (some ks, none) ∧ ks.length = rows.pending.length ∧
          List.Forall₂ (fun row k => store.db.convert.scanCustomer row = .ok k)
            rows.pending ks)) ∧
    (v.state.accepts = true →
      ((∀ row ∈ v.state.meal, ∃ m, Meal.Carries c row m) →
        ∃ ms, (GetMeals (sqlStore c) v).2 = (some ms, none) ∧
          ms.length = v.state.meal.length ∧ List.Forall₂ (Meal.Carries c) v.state.meal ms) ∧
      ((∀ row ∈ v.state.orders, ∃ o, Order.Carries c row o) →
        ∃ os, (GetOrders (sqlStore c) v).2 = (some os, none) ∧
          os.length = v.state.orders.length ∧
          List.Forall₂ (Order.Carries c) v.state.orders os) ∧
      ((∀ row ∈ v.state.customers, ∃ k, Customer.Carries c row k) →
        ∃ ks, (GetCustomer (sqlStore c) v).2 = (some ks, none) ∧
          ks.length = v.state.customers.length ∧
          List.Forall₂ (Customer.Carries c) v.state.customers ks)) := by
  refine ⟨⟨?_, ?_, ?_⟩, fun h => ⟨?_, ?_, ?_⟩⟩
  · intro s rows hq _ hrows
    obtain ⟨ms, hms⟩ := forall₂_of_forall_exists _ hrows
    refine ⟨ms, ?_, hms.length_eq.symm, hms⟩
    rw [GetMeals_of_rows store w s rows hq]
    simpa using scanLoop_ok _ _ ms [] hms
  · intro s rows hq _ hrows
    obtain ⟨os, hos⟩ := forall₂_of_forall_exists _ hrows
    refine ⟨os, ?_, hos.length_eq.symm, hos⟩
    rw [GetOrders_of_rows store w s rows hq]
    simpa using scanLoop_ok _ _ os [] hos
  · intro s rows hq _ hrows
    obtain ⟨ks, hks⟩ := forall₂_of_forall_exists _ hrows
    refine ⟨ks, ?_, hks.length_eq.symm, hks⟩
    rw [GetCustomer_of_rows store w s rows hq]
    simpa using scanLoop_ok _ _ ks [] hks
  · intro hrows
    obtain ⟨ms, hres, hms⟩ := GetMeals_sql_all c v h hrows
    exact ⟨ms, hres, hms.length_eq.symm, hms⟩
  · intro hrows
    obtain ⟨os, hres, hos⟩ := GetOrders_sql_all c v h hrows
    exact ⟨os, hres, hos.length_eq.symm, hos⟩
  · intro hrows
    obtain ⟨ks, hres, hks⟩ := GetCustomer_sql_all c v h hrows
    exact ⟨ks, hres, hks.length_eq.symm, hks⟩

/-- **C3.** An empty table reads as the empty, non-nil slice. For any database:
when the query is answered with a cursor that delivers no row, each reader
returns a nil error and `some []`, the empty slice that is not nil. On the
reference database this is the case whenever the statement is executed and the
table has no rows. -/
theorem empty_table_reads_empty {σ : Type} (store : dbStore σ) (w : World σ) (c : Convert)
    (v : World Database) :
    ((∀ s rows, store.db.query w.state sqlGetMeals [] = (s, .ok rows) → rows.pending = [] →
        (GetMeals store w).2 = (some [], none)) ∧
      (∀ s rows, store.db.query w.state sqlGetOrders [] = (s, .ok rows) → rows.pending = [] →
        (GetOrders store w).2 = (some [], none)) ∧
      (∀ s rows, store.db.query w.state sqlGetCustomer [] = (s, .ok rows) →
        rows.pending = [] → (GetCustomer store w).2 = (some [], none))) ∧
    ((v.state.serves = true → v.state.meal = [] →
        (GetMeals (sqlStore c) v).2 = (some [], none)) ∧
      (v.state.serves = true → v.state.orders = [] →
        (GetOrders (sqlStore c) v).2 = (some [], none)) ∧
      (v.state.serves = true → v.state.customers = [] →
        (GetCustomer (sqlStore c) v).2 = (some [], none))) := by
  refine ⟨⟨?_, ?_, ?_⟩, ?_, ?_, ?_⟩
  · intro s rows hq hr
    rw [GetMeals_of_rows store w s rows hq, hr]
    rfl
  · intro s rows hq hr
    rw [GetOrders_of_rows store w s rows hq, hr]
    rfl
  · intro s rows hq hr
    rw [GetCustomer_of_rows store w s rows hq, hr]
    rfl
  · intro ha he
    rw [GetMeals_sql c v ha, spoil_pending_nil _ _ (by simp [Rows.ofList, he])]
    rfl
  · intro ha he
    rw [GetOrders_sql c v ha, spoil_pending_nil _ _ (by simp [Rows.ofList, he])]
    rfl
  · intro ha he
    rw [GetCustomer_sql c v ha, spoil_pending_nil _ _ (by simp [Rows.ofList, he])]
    rfl

/-! ### The writers on the reference database -/

theorem CreateMeals_sql (c : Convert) (w : World Database) (m : Meal)
    (h : w.state.serves = true) :
    CreateMeals (sqlStore c) w m =
      (⟨⟨w.state.meal ++ [[.str m.Food, .num m.Price, .str m.Image]], w.state.orders,
          w.state.customers, w.state.nextId, w.state.faults.tail⟩,
        w.sent ++ [(sqlCreateMeals, [.str m.Food, .num m.Price, .str m.Image])], w.stdout⟩,
        none) := by
  unfold CreateMeals DB.Query
  simp only [sqlStore]
  rw [exec_served _ _ _ _ _ _ h parse_sqlCreateMeals (run_createMeals _ _ _ _)]
  rfl

theorem CreateCustomer_sql (c : Convert) (w : World Database) (k : Customer)
    (h : w.state.serves = true) :
    CreateCustomer (sqlStore c) w k =
      (⟨⟨w.state.meal, w.state.orders,
          w.state.customers ++ [[.str k.Name, .str k.Address, .str k.Meal, .num k.TotalCost]],
          w.state.nextId, w.state.faults.tail⟩,
        w.sent ++ [(sqlCreateCustomer,
          [.str k.Name, .str k.Address, .str k.Meal, .num k.TotalCost])], w.stdout⟩,
        none) := by
  unfold CreateCustomer DB.Query
  simp only [sqlStore]
  rw [exec_served _ _ _ _ _ _ h parse_sqlCreateCustomer (run_createCustomer _ _ _ _ _)]
  rfl

/-- The database after `CreateOrders` is the database after its statement. -/
theorem CreateOrders_state {σ : Type} (store : dbStore σ) (w : World σ) (orders : Order) :
    (CreateOrders store w orders).world.state = (store.db.query w.state sqlCreateOrders
      [.str orders.Meal, .num orders.Price, .str orders.Image, .int orders.Plates,
        .num orders.TotalCost]).1 := by
  unfold CreateOrders DB.QueryRowScan DB.Query
  rcases store.db.query w.state sqlCreateOrders _ with ⟨s, r⟩
  cases r with
  | error e => rfl
  | ok rows =>
    rcases rows with ⟨pending, err, closeErr⟩
    cases pending with
    | nil => rfl
    | cons row rest =>
      simp only
      cases store.db.convert.scanId row with
      | error e => rfl
      | ok a => cases closeErr <;> rfl

theorem CreateOrders_sql_state (c : Convert) (w : World Database) (o : Order)
    (h : w.state.serves = true) :
    (CreateOrders (sqlStore c) w o).world.state =
      ⟨w.state.meal, w.state.orders ++ [[.int w.state.nextId, .str o.Meal, .num o.Price,
          .str o.Image, .int o.Plates, .num o.TotalCost]], w.state.customers,
        w.state.nextId + 1, w.state.faults.tail⟩ := by
  rw [CreateOrders_state]
  simp only [sqlStore]
  rw [exec_served _ _ _ _ _ _ h parse_sqlCreateOrders (run_createOrders _ _ _ _ _ _)]
  rfl

/-- When `CreateOrders` succeeds on the reference database, the id in its local
variable is the id the database assigned. -/
theorem CreateOrders_sql_id (c : Convert) (hc : c.Faithful) (w : World Database) (o : Order)
    (h : w.state.serves = true) (herr : (CreateOrders (sqlStore c) w o).err = none) :
    (CreateOrders (sqlStore c) w o).id = w.state.nextId := by
  unfold CreateOrders DB.QueryRowScan DB.Query at herr ⊢
  simp only [sqlStore] at herr ⊢
  rw [exec_served _ _ _ _ _ _ h parse_sqlCreateOrders (run_createOrders _ _ _ _ _ _)]
    at herr ⊢
  rcases hd : w.state.due with _ | (e | ⟨n, e⟩)
  · simp [Fault.spoil, Rows.ofList, Convert.scanId, hc.2.2, Database.next]
  · simp [Fault.spoil, Rows.ofList, Convert.scanId, hc.2.2, Database.next]
  · cases n with
    | zero => simp [hd, Fault.spoil, Rows.ofList] at herr
    | succ n => simp [Fault.spoil, Rows.ofList, Convert.scanId, hc.2.2, Database.next]

theorem DeleteOrders_sql (c : Convert) (w : World Database) (h : w.state.serves = true) :
    DeleteOrders (sqlStore c) w =
      (⟨⟨w.state.meal, [], w.state.customers, w.state.nextId, w.state.faults.tail⟩,
        w.sent ++ [(sqlDeleteOrders, [])], w.stdout⟩, none) := by
  unfold DeleteOrders DB.Query
  simp only [sqlStore]
  rw [exec_served _ _ _ _ _ _ h parse_sqlDeleteOrders (run_deleteOrders _)]
  rfl

theorem DeleteMealOrder_sql (c : Convert) (w : World Database) (id : Int)
    (h : w.state.serves = true) :
    DeleteMealOrder (sqlStore c) w id =
      (⟨⟨w.state.meal,
          w.state.orders.filter (fun row => decide (Table.orders.cell "id" row ≠ .int id)),
          w.state.customers, w.state.nextId, w.state.faults.tail⟩,
        w.sent ++ [(sqlDeleteMealOrder, [.int id])], w.stdout⟩, none) := by
  unfold DeleteMealOrder DB.Query
  simp only [sqlStore]
  rw [exec_served _ _ _ _ _ _ h parse_sqlDeleteMealOrder (run_deleteMealOrder _ _)]
  simp [sqlEq_int, errOf, Database.next]

/-- A refused statement leaves the tables as they were and hands its error to
the writer that sent it. -/
theorem writers_sql_refused (c : Convert) (w : World Database) (e : Error)
    (h : w.state.due = some (.refuse e)) (m : Meal) (o : Order) (k : Customer) (id : Int) :
    CreateMeals (sqlStore c) w m =
      (⟨w.state.next, w.sent ++ [(sqlCreateMeals, [.str m.Food, .num m.Price, .str m.Image])],
        w.stdout⟩, some e) ∧
    (CreateOrders (sqlStore c) w o).err = some e ∧
    (CreateOrders (sqlStore c) w o).world.state = w.state.next ∧
    CreateCustomer (sqlStore c) w k =
      (⟨w.state.next, w.sent ++ [(sqlCreateCustomer,
        [.str k.Name, .str k.Address, .str k.Meal, .num k.TotalCost])], w.stdout⟩, some e) ∧
    DeleteOrders (sqlStore c) w =
      (⟨w.state.next, w.sent ++ [(sqlDeleteOrders, [])], w.stdout⟩, some e) ∧
    DeleteMealOrder (sqlStore c) w id =
      (⟨w.state.next, w.sent ++ [(sqlDeleteMealOrder, [.int id])], w.stdout⟩, some e) := by
  refine ⟨?_, ?_, ?_, ?_, ?_, ?_⟩
  · unfold CreateMeals DB.Query
    simp only [sqlStore]
    rw [exec_refused _ e _ _ h]
    rfl
  · unfold CreateOrders DB.QueryRowScan DB.Query
    simp only [sqlStore]
    rw [exec_refused _ e _ _ h]
  · rw [CreateOrders_state]
    simp only [sqlStore]
    rw [exec_refused _ e _ _ h]
  · unfold CreateCustomer DB.Query
    simp only [sqlStore]
    rw [exec_refused _ e _ _ h]
    rfl
  · unfold DeleteOrders DB.Query
    simp only [sqlStore]
    rw [exec_refused _ e _ _ h]
    rfl
  · unfold DeleteMealOrder DB.Query
    simp only [sqlStore]
    rw [exec_refused _ e _ _ h]
    rfl

/-! ### Round trips through the reference database -/

/-- **C1, amended.** Create-then-read round trip. For every state of the
database and every Meal, Order or Customer: if the create operation returns no
error, the database serves the next read-all of the same kind in full and the
rows stored before the create decode, then the read returns no error and its
result contains a record equal to the created one; for an Order the record has
the Meal, Price, Image, Plates and TotalCost of the created one and the id the
database assigned, which is also the id scanned into the local variable of
`CreateOrders`. The conversions of `Scan` are taken faithful on columns of the
destination's own kind. -/
theorem create_then_read_round_trip (c : Convert) (hc : c.Faithful) (w : World Database) :
    (∀ m : Meal, (CreateMeals (sqlStore c) w m).2 = none →
      (CreateMeals (sqlStore c) w m).1.state.accepts = true →
      (∀ row ∈ w.state.meal, ∃ x, Meal.Carries c row x) →
      ∃ ms, (GetMeals (sqlStore c) (CreateMeals (sqlStore c) w m).1).2 = (some ms, none) ∧
        m ∈ ms) ∧
    (∀ o : Order, (CreateOrders (sqlStore c) w o).err = none →
      (CreateOrders (sqlStore c) w o).world.state.accepts = true →
      (∀ row ∈ w.state.orders, ∃ x, Order.Carries c row x) →
      ∃ os, (GetOrders (sqlStore c) (CreateOrders (sqlStore c) w o).world).2 =
          (some os, none) ∧
        (⟨w.state.nextId, o.Meal, o.Price, o.Image, o.Plates, o.TotalCost⟩ : Order) ∈ os ∧
        (CreateOrders (sqlStore c) w o).id = w.state.nextId) ∧
    (∀ k : Customer, (CreateCustomer (sqlStore c) w k).2 = none →
      (CreateCustomer (sqlStore c) w k).1.state.accepts = true →
      (∀ row ∈ w.state.customers, ∃ x, Customer.Carries c row x) →
      ∃ ks, (GetCustomer (sqlStore c) (CreateCustomer (sqlStore c) w k).1).2 =
          (some ks, none) ∧ k ∈ ks) := by
  obtain ⟨hs, hn, hi⟩ := hc
  refine ⟨?_, ?_, ?_⟩
  · intro m hcreate hacc hold
    rcases serves_or_refused w.state with ha | ⟨e, hf⟩
    · have hst : (CreateMeals (sqlStore c) w m).1.state.meal =
          w.state.meal ++ [[.str m.Food, .num m.Price, .str m.Image]] := by
        rw [CreateMeals_sql c w m ha]
      generalize (CreateMeals (sqlStore c) w m).1 = w1 at hacc hst ⊢
      have hnew : Meal.Carries c [.str m.Food, .num m.Price, .str m.Image] m :=
        ⟨hs _, hn _, hs _⟩
      obtain ⟨ms, hres, hms⟩ := GetMeals_sql_all c w1 hacc (by
        intro row hrow
        rw [hst] at hrow
        rcases List.mem_append.mp hrow with h1 | h1
        · exact hold row h1
        · rw [List.mem_singleton.mp h1]
          exact ⟨m, hnew⟩)
      refine ⟨ms, hres, ?_⟩
      rw [hst] at hms
      obtain ⟨x, hx, hr⟩ := forall₂_mem_left hms [.str m.Food, .num m.Price, .str m.Image]
        (by simp)
      have hxm : x = m := by
        rcases x with ⟨a, b, d⟩
        rcases m with ⟨a2, b2, d2⟩
        obtain ⟨h1, h2, h3⟩ := hr
        have e1 := h1.symm.trans hnew.1
        have e2 := h2.symm.trans hnew.2.1
        have e3 := h3.symm.trans hnew.2.2
        simp only [Except.ok.injEq] at e1 e2 e3
        rw [e1, e2, e3]
      rw [← hxm]
      exact hx
    · rw [(writers_sql_refused c w e hf m ⟨0, "", 0, "", 0, 0⟩ ⟨"", "", "", 0⟩ 0).1] at hcreate
      simp at hcreate
  · intro o hcreate hacc hold
    rcases serves_or_refused w.state with ha | ⟨e, hf⟩
    · have hid := CreateOrders_sql_id c ⟨hs, hn, hi⟩ w o ha hcreate
      have hst : (CreateOrders (sqlStore c) w o).world.state.orders = w.state.orders ++
          [[.int w.state.nextId, .str o.Meal, .num o.Price, .str o.Image, .int o.Plates,
            .num o.TotalCost]] := by
        rw [CreateOrders_sql_state c w o ha]
      generalize (CreateOrders (sqlStore c) w o).world = w1 at hacc hst ⊢
      have hnew : Order.Carries c [.int w.state.nextId, .str o.Meal, .num o.Price,
          .str o.Image, .int o.Plates, .num o.TotalCost]
          ⟨w.state.nextId, o.Meal, o.Price, o.Image, o.Plates, o.TotalCost⟩ :=
        ⟨hi _, hs _, hn _, hs _, hi _, hn _⟩
      obtain ⟨os, hres, hos⟩ := GetOrders_sql_all c w1 hacc (by
        intro row hrow
        rw [hst] at hrow
        rcases List.mem_append.mp hrow with h1 | h1
        · exact hold row h1
        · rw [List.mem_singleton.mp h1]
          exact ⟨_, hnew⟩)
      refine ⟨os, hres, ?_, hid⟩
      rw [hst] at hos
      obtain ⟨x, hx, hr⟩ := forall₂_mem_left hos [.int w.state.nextId, .str o.Meal,
        .num o.Price, .str o.Image, .int o.Plates, .num o.TotalCost] (by simp)
      have hxo : x = ⟨w.state.nextId, o.Meal, o.Price, o.Image, o.Plates, o.TotalCost⟩ := by
        rcases x with ⟨a, b, d, e, f, g⟩
        obtain ⟨h1, h2, h3, h4, h5, h6⟩ := hr
        have e1 := h1.symm.trans hnew.1
        have e2 := h2.symm.trans hnew.2.1
        have e3 := h3.symm.trans hnew.2.2.1
        have e4 := h4.symm.trans hnew.2.2.2.1
        have e5 := h5.symm.trans hnew.2.2.2.2.1
        have e6 := h6.symm.trans hnew.2.2.2.2.2
        simp only [Except.ok.injEq] at e1 e2 e3 e4 e5 e6
        rw [e1, e2, e3, e4, e5, e6]
      rw [← hxo]
      exact hx
    · rw [(writers_sql_refused c w e hf ⟨"", 0, ""⟩ o ⟨"", "", "", 0⟩ 0).2.1] at hcreate
      simp at hcreate
  · intro k hcreate hacc hold
    rcases serves_or_refused w.state with ha | ⟨e, hf⟩
    · have hst : (CreateCustomer (sqlStore c) w k).1.state.customers = w.state.customers ++
          [[.str k.Name, .str k.Address, .str k.Meal, .num k.TotalCost]] := by
        rw [CreateCustomer_sql c w k ha]
      generalize (CreateCustomer (sqlStore c) w k).1 = w1 at hacc hst ⊢
      have hnew : Customer.Carries c
          [.str k.Name, .str k.Address, .str k.Meal, .num k.TotalCost] k :=
        ⟨hs _, hs _, hs _, hn _⟩
      obtain ⟨ks, hres, hks⟩ := GetCustomer_sql_all c w1 hacc (by
        intro row hrow
        rw [hst] at hrow
        rcases List.mem_append.mp hrow with h1 | h1
        · exact hold row h1
        · rw [List.mem_singleton.mp h1]
          exact ⟨k, hnew⟩)
      refine ⟨ks, hres, ?_⟩
      rw [hst] at hks
      obtain ⟨x, hx, hr⟩ := forall₂_mem_left hks
        [.str k.Name, .str k.Address, .str k.Meal, .num k.TotalCost] (by simp)
      have hxk : x = k := by
        rcases x with ⟨a, b, d, e⟩
        rcases k with ⟨a2, b2, d2, e2⟩
        obtain ⟨h1, h2, h3, h4⟩ := hr
        have e1 := h1.symm.trans hnew.1
        have e2 := h2.symm.trans hnew.2.1
        have e3 := h3.symm.trans hnew.2.2.1
        have e4 := h4.symm.trans hnew.2.2.2
        simp only [Except.ok.injEq] at e1 e2 e3 e4
        rw [e1, e2, e3, e4]
      rw [← hxk]
      exact hx
    · rw [(writers_sql_refused c w e hf ⟨"", 0, ""⟩ ⟨0, "", 0, "", 0, 0⟩ k 0).2.2.2.1]
        at hcreate
      simp at hcreate

/-- **C1 as stated fails.** A successful create does not make the next read
succeed. On the empty database that serves the first statement and refuses the
second, `CreateMeals` returns no error and the next `GetMeals` returns the error
and the nil slice; and on a database that serves every statement and already
stores a meal with a NULL price, `CreateMeals` returns no error and the next
`GetMeals` returns the error of the scan of that row. -/
theorem create_then_read_fails_when_read_fails :
    ((CreateMeals (sqlStore stdConvert)
        (World.start ⟨[], [], [], 1, [none, some (.refuse connectionReset)]⟩) rice).2 = none ∧
      (GetMeals (sqlStore stdConvert) (CreateMeals (sqlStore stdConvert)
        (World.start ⟨[], [], [], 1, [none, some (.refuse connectionReset)]⟩) rice).1).2 =
          (none, some connectionReset)) ∧
    ((CreateMeals (sqlStore stdConvert) (World.start ⟨[yamRow], [], [], 1, []⟩) rice).2 =
        none ∧
      (GetMeals (sqlStore stdConvert) (CreateMeals (sqlStore stdConvert)
        (World.start ⟨[yamRow], [], [], 1, []⟩) rice).1).2 =
          (none, some ⟨"sql: Scan error: unsupported conversion to float64"⟩)) := by
  decide

/-- The round trip on the stocked database: each created record comes back
after the row stored before, the order with the id 2 that the database
assigned. -/
theorem create_then_read_round_trip_witness :
    stdConvert.Faithful ∧
    (∃ ms, (GetMeals (sqlStore stdConvert)
      (CreateMeals (sqlStore stdConvert) (World.start stocked) rice).1).2 = (some ms, none) ∧
        rice ∈ ms) ∧
    (∃ os, (GetOrders (sqlStore stdConvert)
      (CreateOrders (sqlStore stdConvert) (World.start stocked) pasta).world).2 =
          (some os, none) ∧
        (⟨2, "Pasta", 12, "pasta.jpg", 2, 25⟩ : Order) ∈ os ∧
        (CreateOrders (sqlStore stdConvert) (World.start stocked) pasta).id = 2) ∧
    (∃ ks, (GetCustomer (sqlStore stdConvert)
      (CreateCustomer (sqlStore stdConvert) (World.start stocked) ada).1).2 =
          (some ks, none) ∧ ada ∈ ks) :=
  have hf : stdConvert.Faithful := ⟨fun _ => rfl, fun _ => rfl, fun _ => rfl⟩
  ⟨hf,
    (create_then_read_round_trip stdConvert hf (World.start stocked)).1 rice (by decide)
      (by decide) (fun row hr => ⟨rice, by
        obtain rfl : row = riceRow := by simpa [World.start, stocked] using hr
        exact ⟨rfl, rfl, rfl⟩⟩),
    (create_then_read_round_trip stdConvert hf (World.start stocked)).2.1 pasta (by decide)
      (by decide) (fun row hr => ⟨⟨1, "Pasta", 12, "pasta.jpg", 2, 25⟩, by
        obtain rfl : row = pastaRow := by simpa [World.start, stocked] using hr
        exact ⟨rfl, rfl, rfl, rfl, rfl, rfl⟩⟩),
    (create_then_read_round_trip stdConvert hf (World.start stocked)).2.2 ada (by decide)
      (by decide) (fun row hr => ⟨ada, by
        obtain rfl : row = adaRow := by simpa [World.start, stocked] using hr
        exact ⟨rfl, rfl, rfl, rfl⟩⟩)⟩

/-- Every row of a cursor and every row of the stocked database is read back. -/
theorem read_all_returns_every_row_witness :
    ((∃ ms, (GetMeals (scripted (.ok oneMeal)) (World.start ())).2 = (some ms, none) ∧
        ms.length = 1 ∧
        List.Forall₂ (fun row m => stdConvert.scanMeal row = .ok m) [riceRow] ms) ∧
      (∃ os, (GetOrders (scripted (.ok oneOrder)) (World.start ())).2 = (some os, none) ∧
        os.length = 1 ∧
        List.Forall₂ (fun row o => stdConvert.scanOrder row = .ok o) [pastaRow] os) ∧
      (∃ ks, (GetCustomer (scripted (.ok oneCustomer)) (World.start ())).2 =
          (some ks, none) ∧ ks.length = 1 ∧
        List.Forall₂ (fun row k => stdConvert.scanCustomer row = .ok k) [adaRow] ks)) ∧
    stocked.accepts = true ∧
    (∃ ms, (GetMeals (sqlStore stdConvert) (World.start stocked)).2 = (some ms, none) ∧
      ms.length = 1 ∧ List.Forall₂ (Meal.Carries stdConvert) [riceRow] ms) ∧
    (∃ os, (GetOrders (sqlStore stdConvert) (World.start stocked)).2 = (some os, none) ∧
      os.length = 1 ∧ List.Forall₂ (Order.Carries stdConvert) [pastaRow] os) ∧
    (∃ ks, (GetCustomer (sqlStore stdConvert) (World.start stocked)).2 = (some ks, none) ∧
      ks.length = 1 ∧ List.Forall₂ (Customer.Carries stdConvert) [adaRow] ks) :=
  ⟨⟨(read_all_returns_every_row (scripted (.ok oneMeal)) (World.start ()) stdConvert
        (World.start stocked)).1.1 () oneMeal rfl rfl
        (fun row hr => ⟨rice, by
          obtain rfl : row = riceRow := by simpa [oneMeal, Rows.ofList] using hr
          rfl⟩),
      (read_all_returns_every_row (scripted (.ok oneOrder)) (World.start ()) stdConvert
        (World.start stocked)).1.2.1 () oneOrder rfl rfl
        (fun row hr => ⟨⟨1, "Pasta", 12, "pasta.jpg", 2, 25⟩, by
          obtain rfl : row = pastaRow := by simpa [oneOrder, Rows.ofList] using hr
          rfl⟩),
      (read_all_returns_every_row (scripted (.ok oneCustomer)) (World.start ()) stdConvert
        (World.start stocked)).1.2.2 () oneCustomer rfl rfl
        (fun row hr => ⟨ada, by
          obtain rfl : row = adaRow := by simpa [oneCustomer, Rows.ofList] using hr
          rfl⟩)⟩,
    by decide,
    ((read_all_returns_every_row (scripted (.ok oneMeal)) (World.start ()) stdConvert
        (World.start stocked)).2 (by decide)).1
      (fun row hr => ⟨rice, by
        obtain rfl : row = riceRow := by simpa [World.start, stocked] using hr
        exact ⟨rfl, rfl, rfl⟩⟩),
    ((read_all_returns_every_row (scripted (.ok oneMeal)) (World.start ()) stdConvert
        (World.start stocked)).2 (by decide)).2.1
      (fun row hr => ⟨⟨1, "Pasta", 12, "pasta.jpg", 2, 25⟩, by
        obtain rfl : row = pastaRow := by simpa [World.start, stocked] using hr
        exact ⟨rfl, rfl, rfl, rfl, rfl, rfl⟩⟩),
    ((read_all_returns_every_row (scripted (.ok oneMeal)) (World.start ()) stdConvert
        (World.start stocked)).2 (by decide)).2.2
      (fun row hr => ⟨ada, by
        obtain rfl : row = adaRow := by simpa [World.start, stocked] using hr
        exact ⟨rfl, rfl, rfl, rfl⟩⟩)⟩

/-- The three readers on a cursor without rows and on the empty database. -/
theorem empty_table_reads_empty_witness :
    ((GetMeals (scripted (.ok (Rows.ofList []))) (World.start ())).2 = (some [], none) ∧
      (GetOrders (scripted (.ok (Rows.ofList []))) (World.start ())).2 = (some [], none) ∧
      (GetCustomer (scripted (.ok (Rows.ofList []))) (World.start ())).2 = (some [], none)) ∧
    ((GetMeals (sqlStore stdConvert) (World.start emptyDatabase)).2 = (some [], none) ∧
      (GetOrders (sqlStore stdConvert) (World.start emptyDatabase)).2 = (some [], none) ∧
      (GetCustomer (sqlStore stdConvert) (World.start emptyDatabase)).2 = (some [], none)) :=
  ⟨⟨(empty_table_reads_empty (scripted (.ok (Rows.ofList []))) (World.start ()) stdConvert
        (World.start emptyDatabase)).1.1 () (Rows.ofList []) rfl rfl,
      (empty_table_reads_empty (scripted (.ok (Rows.ofList []))) (World.start ()) stdConvert
        (World.start emptyDatabase)).1.2.1 () (Rows.ofList []) rfl rfl,
      (empty_table_reads_empty (scripted (.ok (Rows.ofList []))) (World.start ()) stdConvert
        (World.start emptyDatabase)).1.2.2 () (Rows.ofList []) rfl rfl⟩,
    (empty_table_reads_empty (scripted (.ok (Rows.ofList []))) (World.start ()) stdConvert
        (World.start emptyDatabase)).2.1 (by decide) rfl,
    (empty_table_reads_empty (scripted (.ok (Rows.ofList []))) (World.start ()) stdConvert
        (World.start emptyDatabase)).2.2.1 (by decide) rfl,
    (empty_table_reads_empty (scripted (.ok (Rows.ofList []))) (World.start ()) stdConvert
        (World.start emptyDatabase)).2.2.2 (by decide) rfl⟩

/-- The three readers on cursors whose second row does not decode. -/
theorem decode_failure_aborts_read_witness :
    (GetMeals (scripted (.ok mealsWithNull)) (World.start ())).2 =
      (none, some ⟨"sql: Scan error: unsupported conversion to float64"⟩) ∧
    (GetOrders (scripted (.ok ordersWithNull)) (World.start ())).2 =
      (none, some ⟨"sql: Scan error: unsupported conversion to int64"⟩) ∧
    (GetCustomer (scripted (.ok customersTooShort)) (World.start ())).2 =
      (none, some ErrScanArity) :=
  ⟨(decode_failure_aborts_read (scripted (.ok mealsWithNull)) (World.start ()) ()
      mealsWithNull 1 yamRow ⟨"sql: Scan error: unsupported conversion to float64"⟩ rfl).1 rfl
      (fun i hi r hr => ⟨rice, by
        obtain rfl : i = 0 := by omega
        obtain rfl : riceRow = r := by simpa [mealsWithNull] using hr
        rfl⟩) rfl,
    (decode_failure_aborts_read (scripted (.ok ordersWithNull)) (World.start ()) ()
      ordersWithNull 1 [.null, .str "Yam", .num 7, .str "yam.jpg", .int 1, .num 7]
      ⟨"sql: Scan error: unsupported conversion to int64"⟩ rfl).2.1 rfl
      (fun i hi r hr => ⟨⟨1, "Pasta", 12, "pasta.jpg", 2, 25⟩, by
        obtain rfl : i = 0 := by omega
        obtain rfl : pastaRow = r := by simpa [ordersWithNull] using hr
        rfl⟩) rfl,
    (decode_failure_aborts_read (scripted (.ok customersTooShort)) (World.start ()) ()
      customersTooShort 1 [.str "Bob"] ErrScanArity rfl).2.2 rfl
      (fun i hi r hr => ⟨ada, by
        obtain rfl : i = 0 := by omega
        obtain rfl : adaRow = r := by simpa [customersTooShort] using hr
        rfl⟩) rfl⟩

/-- **C5: the readers do not consult `rows.Err()`.** The database answers the
query, delivers one row and then loses the connection while advancing to the
next: `Next` reports false and `rows.Err()` holds the failure. Each reader
returns the one record decoded so far together with a nil error, where the
claim demands a non-nil error and no records. The same on the reference
database whose tables hold two rows each: one record of two comes back, with a
nil error. -/
theorem readers_return_rows_read_before_failure :
    ((GetMeals (scripted (.ok mealsCutShort)) (World.start ())).2 = (some [rice], none) ∧
      (GetOrders (scripted (.ok ordersCutShort)) (World.start ())).2 =
        (some [⟨1, "Pasta", 12, "pasta.jpg", 2, 25⟩], none) ∧
      (GetCustomer (scripted (.ok customersCutShort)) (World.start ())).2 =
        (some [ada], none)) ∧
    ((cutAfterOne.meal.length = 2 ∧
      (GetMeals (sqlStore stdConvert) (World.start cutAfterOne)).2 = (some [rice], none)) ∧
    (cutAfterOne.orders.length = 2 ∧
      (GetOrders (sqlStore stdConvert) (World.start cutAfterOne)).2 =
        (some [⟨1, "Pasta", 12, "pasta.jpg", 2, 25⟩], none)) ∧
    (cutAfterOne.customers.length = 2 ∧
      (GetCustomer (sqlStore stdConvert) (World.start cutAfterOne)).2 =
        (some [ada], none))) := by
  decide

/-- The five writers on a database that refuses every statement, and
`CreateOrders` on the four answers a database can give without error. -/
theorem errors_propagated_unmodified_witness :
    ((CreateMeals (scripted (.error connectionReset)) (World.start ()) rice).2 =
        some connectionReset ∧
      (CreateCustomer (scripted (.error connectionReset)) (World.start ()) ada).2 =
        some connectionReset ∧
      (DeleteOrders (scripted (.error connectionReset)) (World.start ())).2 =
        some connectionReset ∧
      (DeleteMealOrder (scripted (.error connectionReset)) (World.start ()) 1).2 =
        some connectionReset ∧
      (CreateOrders (scripted (.error connectionReset)) (World.start ()) pasta).err =
        some connectionReset ∧
      (CreateOrders (scripted (.error connectionReset)) (World.start ()) pasta).world.stdout =
        ["unable to execute the query: read tcp: connection reset by peer"]) ∧
    (CreateOrders (scripted (.ok noRowReturned)) (World.start ()) pasta).err =
      some ErrNoRows ∧
    (CreateOrders (scripted (.ok nullIdReturned)) (World.start ()) pasta).err =
      some ⟨"sql: Scan error: unsupported conversion to int64"⟩ ∧
    (CreateOrders (scripted (.ok closeFails)) (World.start ()) pasta).err =
      some connectionReset ∧
    (CreateOrders (scripted (.ok idReturned)) (World.start ()) pasta).err = none :=
  ⟨⟨(errors_propagated_unmodified (scripted (.error connectionReset)) (World.start ()) rice
        pasta ada 1).1.1,
      (errors_propagated_unmodified (scripted (.error connectionReset)) (World.start ()) rice
        pasta ada 1).2.1.1,
      (errors_propagated_unmodified (scripted (.error connectionReset)) (World.start ()) rice
        pasta ada 1).2.2.1.1,
      (errors_propagated_unmodified (scripted (.error connectionReset)) (World.start ()) rice
        pasta ada 1).2.2.2.1.1,
      (errors_propagated_unmodified (scripted (.error connectionReset)) (World.start ()) rice
        pasta ada 1).2.2.2.2.2.1 connectionReset rfl,
      (errors_propagated_unmodified (scripted (.error connectionReset)) (World.start ()) rice
        pasta ada 1).2.2.2.2.2.2.2.2.2.2⟩,
    (errors_propagated_unmodified (scripted (.ok noRowReturned)) (World.start ()) rice
      pasta ada 1).2.2.2.2.2.2.1 noRowReturned rfl rfl,
    (errors_propagated_unmodified (scripted (.ok nullIdReturned)) (World.start ()) rice
      pasta ada 1).2.2.2.2.2.2.2.1 nullIdReturned [.null] []
      ⟨"sql: Scan error: unsupported conversion to int64"⟩ rfl rfl rfl,
    (errors_propagated_unmodified (scripted (.ok closeFails)) (World.start ()) rice
      pasta ada 1).2.2.2.2.2.2.2.2.1 closeFails [.int 7] [] 7 rfl rfl rfl,
    (errors_propagated_unmodified (scripted (.ok idReturned)) (World.start ()) rice
      pasta ada 1).2.2.2.2.2.2.2.2.2.1.mpr ⟨idReturned, [.int 7], [], 7, rfl, rfl, rfl, rfl⟩⟩

/-- **C7 as stated fails.** No order of the database has the id 7, the database
refuses the statement, and `DeleteMealOrder 7` returns the error of the
database where the claim promises a nil error; and `DeleteMealOrder 1` returns
the error and leaves the order with id 1 in the table. -/
theorem DeleteMealOrder_can_fail :
    ((∀ row ∈ offline.orders, Table.orders.cell "id" row ≠ .int 7) ∧
      (DeleteMealOrder (sqlStore stdConvert) (World.start offline) 7).2 =
        some connectionReset) ∧
    ((DeleteMealOrder (sqlStore stdConvert) (World.start offline) 1).2 =
        some connectionReset ∧
      (DeleteMealOrder (sqlStore stdConvert) (World.start offline) 1).1.state.orders =
        [pastaRow]) := by
  decide

/-- **C7, amended.** Whenever the database executes the statement,
`DeleteMealOrder(id)` returns a nil error and removes exactly the order rows
whose id equals `id`: the other order rows stay, in their order, and the meal
and customers tables are unchanged; for an id that matches no row the orders
table is unchanged as well. When the database refuses the statement its error is
returned and no table changes. -/
theorem DeleteMealOrder_removes_matching_rows (c : Convert) (w : World Database) (id : Int) :
    (w.state.serves = true →
      (DeleteMealOrder (sqlStore c) w id).2 = none ∧
      (DeleteMealOrder (sqlStore c) w id).1.state.orders =
        w.state.orders.filter (fun row => decide (Table.orders.cell "id" row ≠ .int id)) ∧
      (DeleteMealOrder (sqlStore c) w id).1.state.meal = w.state.meal ∧
      (DeleteMealOrder (sqlStore c) w id).1.state.customers = w.state.customers ∧
      ((∀ row ∈ w.state.orders, Table.orders.cell "id" row ≠ .int id) →
        (DeleteMealOrder (sqlStore c) w id).1.state.orders = w.state.orders)) ∧
    (∀ e, w.state.due = some (.refuse e) →
      (DeleteMealOrder (sqlStore c) w id).2 = some e ∧
      (DeleteMealOrder (sqlStore c) w id).1.state.orders = w.state.orders ∧
      (DeleteMealOrder (sqlStore c) w id).1.state.meal = w.state.meal ∧
      (DeleteMealOrder (sqlStore c) w id).1.state.customers = w.state.customers) := by
  refine ⟨?_, ?_⟩
  · intro ha
    rw [DeleteMealOrder_sql c w id ha]
    refine ⟨rfl, rfl, rfl, rfl, ?_⟩
    intro hno
    simp only
    rw [List.filter_eq_self]
    intro row hrow
    simpa using hno row hrow
  · intro e hf
    rw [(writers_sql_refused c w e hf ⟨"", 0, ""⟩ ⟨0, "", 0, "", 0, 0⟩ ⟨"", "", "", 0⟩
      id).2.2.2.2.2]
    exact ⟨rfl, rfl, rfl, rfl⟩

/-- The stocked database: deleting order 1 empties the orders table, deleting
the unknown order 7 changes nothing and returns nil; the database that refuses
the statement returns its error and keeps its order. -/
theorem DeleteMealOrder_removes_matching_rows_witness :
    ((DeleteMealOrder (sqlStore stdConvert) (World.start stocked) 1).2 = none ∧
      (DeleteMealOrder (sqlStore stdConvert) (World.start stocked) 1).1.state.orders = [] ∧
      (DeleteMealOrder (sqlStore stdConvert) (World.start stocked) 1).1.state.meal =
        [riceRow] ∧
      (DeleteMealOrder (sqlStore stdConvert) (World.start stocked) 1).1.state.customers =
        [adaRow]) ∧
    (DeleteMealOrder (sqlStore stdConvert) (World.start stocked) 7).1.state.orders =
      [pastaRow] ∧
    ((DeleteMealOrder (sqlStore stdConvert) (World.start offline) 1).2 = some connectionReset ∧
      (DeleteMealOrder (sqlStore stdConvert) (World.start offline) 1).1.state.orders =
        [pastaRow]) :=
  ⟨⟨((DeleteMealOrder_removes_matching_rows stdConvert (World.start stocked) 1).1
        (by decide)).1,
      ((DeleteMealOrder_removes_matching_rows stdConvert (World.start stocked) 1).1
        (by decide)).2.1,
      ((DeleteMealOrder_removes_matching_rows stdConvert (World.start stocked) 1).1
        (by decide)).2.2.1,
      ((DeleteMealOrder_removes_matching_rows stdConvert (World.start stocked) 1).1
        (by decide)).2.2.2.1⟩,
    ((DeleteMealOrder_removes_matching_rows stdConvert (World.start stocked) 7).1
      (by decide)).2.2.2.2 (by decide),
    ⟨((DeleteMealOrder_removes_matching_rows stdConvert (World.start offline) 1).2
        connectionReset rfl).1,
      ((DeleteMealOrder_removes_matching_rows stdConvert (World.start offline) 1).2
        connectionReset rfl).2.1⟩⟩

/-- **C8 as stated fails.** `DeleteOrders` succeeds, the database then refuses
the next statement, and `GetOrders` returns an error and the nil slice; and on a
database that refuses the statement, `DeleteOrders` on an orders table that is
already empty returns the error. -/
theorem DeleteOrders_then_GetOrders_can_fail :
    ((DeleteOrders (sqlStore stdConvert) (World.start failsSecond)).2 = none ∧
      (GetOrders (sqlStore stdConvert)
        (DeleteOrders (sqlStore stdConvert) (World.start failsSecond)).1).2 =
          (none, some connectionReset)) ∧
    (offlineNoOrders.orders = [] ∧
      (DeleteOrders (sqlStore stdConvert) (World.start offlineNoOrders)).2 =
        some connectionReset) := by
  decide

/-- **C8, amended.** For every state of the database: after a successful
`DeleteOrders`, a `GetOrders` whose query the database executes returns a nil
error and the empty non-nil slice; `DeleteOrders` on an orders table that is
already empty returns a nil error whenever the database executes the statement,
and the table stays empty. -/
theorem DeleteOrders_then_GetOrders (c : Convert) (w : World Database) :
    ((DeleteOrders (sqlStore c) w).2 = none →
      (DeleteOrders (sqlStore c) w).1.state.serves = true →
      (GetOrders (sqlStore c) (DeleteOrders (sqlStore c) w).1).2 = (some [], none)) ∧
    (w.state.serves = true → w.state.orders = [] →
      (DeleteOrders (sqlStore c) w).2 = none ∧
      (DeleteOrders (sqlStore c) w).1.state.orders = []) := by
  refine ⟨?_, ?_⟩
  · intro hdel ha1
    have hord : (DeleteOrders (sqlStore c) w).1.state.orders = [] := by
      rcases serves_or_refused w.state with ha | ⟨e, hf⟩
      · rw [DeleteOrders_sql c w ha]
      · rw [(writers_sql_refused c w e hf ⟨"", 0, ""⟩ ⟨0, "", 0, "", 0, 0⟩ ⟨"", "", "", 0⟩
          0).2.2.2.2.1] at hdel
        simp at hdel
    generalize (DeleteOrders (sqlStore c) w).1 = w1 at ha1 hord ⊢
    rw [GetOrders_sql c w1 ha1, spoil_pending_nil _ _ (by simp [Rows.ofList, hord])]
    rfl
  · intro ha _
    rw [DeleteOrders_sql c w ha]
    exact ⟨rfl, rfl⟩

/-- The stocked database: after `DeleteOrders`, `GetOrders` returns the empty
non-nil slice; and `DeleteOrders` on the empty database returns nil. -/
theorem DeleteOrders_then_GetOrders_witness :
    (GetOrders (sqlStore stdConvert)
      (DeleteOrders (sqlStore stdConvert) (World.start stocked)).1).2 = (some [], none) ∧
    ((DeleteOrders (sqlStore stdConvert) (World.start emptyDatabase)).2 = none ∧
      (DeleteOrders (sqlStore stdConvert) (World.start emptyDatabase)).1.state.orders = []) :=
  ⟨(DeleteOrders_then_GetOrders stdConvert (World.start stocked)).1 (by decide) (by decide),
    (DeleteOrders_then_GetOrders stdConvert (World.start emptyDatabase)).2 (by decide) rfl⟩

end Foodie
